import Mathlib

/-!
Shallow embedding of the decode/lifetime core of the `endpoint-sec` /
`endpoint-sec-sys` Rust crates (HarfangLab/endpoint-sec), together with
theorems settling the claims about it.

Conventions of the embedding:
- machine integers are modelled as `Nat` (unsigned) or `Int` (signed), with
  explicit casts/clamps where the Rust code relies on wrap-around or
  saturation (`u32` saturating arithmetic, `as u32` casts);
- raw pointers are modelled by `RustPtr` (`null` or `valid x` where `x` is
  the pointee value, usable under the FFI safety contracts the code relies
  on); `ShouldNotBeNull` wraps such a pointer, as in `endpoint-sec-sys`;
- a Rust panic is modelled as `Except.error msg`;
- the foreign Endpoint Security calls made by the record lifecycle manager
  (`es_copy_message`, `es_free_message`, `es_retain_message`,
  `es_release_message`) are modelled by an instrumented fake OS layer: every
  operation also returns the list of calls it performed;
- event payload structs whose fields are not read by any verified accessor
  are modelled by the opaque carrier `RawEventData` (standing for the raw
  bytes of the corresponding union arm); payloads whose fields are read
  (`es_event_exec_t`, `es_event_open_t`, `es_event_rename_t`,
  `es_process_t`, ...) are modelled field by field;
- the build configuration modelled for the event table is the maximal one
  supported by the vendored `endpoint-sec-sys` sources: all `macos_*`
  features up to and including `macos_13_0_0` (the `es_event_type_t` table
  in `types.rs` ends at tag 125, `ES_EVENT_TYPE_NOTIFY_BTM_LAUNCH_ITEM_REMOVE`).
-/

set_option maxHeartbeats 1600000
set_option maxRecDepth 16000

namespace EndpointSec

/-! ## Raw pointer model -/

/-- A raw Rust pointer `*mut T` / `*const T` as seen through the FFI safety
contract: it is either null or points at a valid value of the pointee type. -/
inductive RustPtr (α : Type) where
  | null : RustPtr α
  | valid (a : α) : RustPtr α
deriving Repr

/-- Model of `ptr::as_ref()` under the safety contract: `None` for null, `Some` of the
pointee otherwise. -/
def RustPtr.as_ref {α : Type} : RustPtr α → Option α
  | .null => none
  | .valid a => some a

/-- Model of `endpoint-sec-sys::ShouldNotBeNull<T>`: a transparent wrapper around a
`*mut T` that is documented never to be null, with panics (not UB) if it is. -/
structure ShouldNotBeNull (α : Type) where
  ptr : RustPtr α
deriving Repr

/-- The panic message used by `ShouldNotBeNull::as_ref` (`lib.rs`). -/
def shouldNotBeNullPanicMsg : String := "Pointer was null when it should not"

/-- Model of `ShouldNotBeNull::as_ref`: `self.0.as_ref().expect("Pointer was null when
it should not")` — panics on null, otherwise returns the pointee. -/
def ShouldNotBeNull.as_ref {α : Type} (p : ShouldNotBeNull α) : Except String α :=
  match p.ptr.as_ref with
  | none => .error shouldNotBeNullPanicMsg
  | some a => .ok a

/-- Model of `ShouldNotBeNull::as_opt`: plain `ptr::as_ref()`. -/
def ShouldNotBeNull.as_opt {α : Type} (p : ShouldNotBeNull α) : Option α :=
  p.ptr.as_ref

/-! ## Length-qualified string view (`es_string_token_t`) -/

/-- Model of `es_string_token_t`: a `(length, data)` pair. The data pointer is modelled
as `none` (null) or `some mem` where `mem i` is the byte at offset `i`. -/
structure es_string_token_t where
  length : Nat
  data : Option (Nat → UInt8)

/-- Reading `len` bytes starting at a (non-null) data pointer, i.e. the model
of `core::slice::from_raw_parts(data, len)` seen as a byte list. -/
def readBytes (mem : Nat → UInt8) (len : Nat) : List UInt8 :=
  (List.range len).map mem

/-- Model of `es_string_token_t::as_os_str` (`types.rs`): when `length > 0` and the
data pointer is non-null, view the `length` bytes; otherwise the empty view.
The null check happens before any dereference. -/
def es_string_token_t.as_os_str (s : es_string_token_t) : List UInt8 :=
  if 0 < s.length then
    match s.data with
    | none => []
    | some mem => readBytes mem s.length
  else []

/-! ## Files, processes, threads, messages -/

/-- Opaque carrier for raw event/record data none of the verified accessors
inspect (stat blocks, audit tokens, and the union arms whose payload fields
no claim reads). Distinct values stand for distinct raw bytes. -/
structure RawEventData where
  bits : Nat
deriving Repr, DecidableEq

/-- Model of `timeval`: seconds/microseconds, both signed C integers. -/
structure timeval where
  tv_sec : Int
  tv_usec : Int

/-- Two's-complement cast of a signed value to `u64` (`x as u64` in Rust). -/
def as_u64 (x : Int) : Nat := (x % (2 ^ 64 : Int)).toNat

/-- Two's-complement cast of an `i32` value to `u32` (`x as u32` in Rust). -/
def i32_as_u32 (x : Int) : Nat := (x % (2 ^ 32 : Int)).toNat

/-- Model of `es_file_t`: path token, truncation flag and stat block. -/
structure es_file_t where
  path : es_string_token_t
  path_truncated : Bool
  stat : RawEventData

/-- Model of `endpoint-sec::File`: borrowed wrapper around an `es_file_t`. -/
structure File where
  raw : es_file_t

/-- Model of `File::new`. -/
def File.new (raw : es_file_t) : File := ⟨raw⟩

/-- Model of `es_process_t` (`endpoint-sec-sys/src/message.rs`), with the version-4
audit tokens kept opaque. `tty` is a nullable `*mut es_file_t`;
`executable` is `ShouldNotBeNull`. -/
structure es_process_t where
  audit_token : RawEventData
  ppid : Int
  original_ppid : Int
  group_id : Int
  session_id : Int
  codesigning_flags : Nat
  is_platform_binary : Bool
  is_es_client : Bool
  cdhash : List UInt8
  signing_id : es_string_token_t
  team_id : es_string_token_t
  executable : ShouldNotBeNull es_file_t
  tty : RustPtr es_file_t
  start_time : timeval
  responsible_audit_token : RawEventData
  parent_audit_token : RawEventData

/-- Model of `endpoint-sec::Process`: the raw process record together with the
message version captured at decode time. -/
structure Process where
  raw : es_process_t
  version : Nat

/-- Model of `Process::new`. -/
def Process.new (raw : es_process_t) (version : Nat) : Process := ⟨raw, version⟩

/-- Model of `Process::tty` (`message.rs`): `None` below version 2, otherwise
`self.raw.tty.as_ref().map(File::new)` — still `None` when the pointer is
null. -/
def Process.tty (p : Process) : Option File :=
  if p.version ≥ 2 then p.raw.tty.as_ref.map File.new else none

/-- Model of `u64::MAX + 1`: the overflow bound of the `u64` seconds field when
two `Duration` values are added. -/
def u64Bound : Nat := 2 ^ 64

/-- Model of `i64::MAX`: the seconds range of the platform `SystemTime`
timestamp (`timespec` with `i64` seconds), which bounds
`SystemTime::UNIX_EPOCH.checked_add`. -/
def i64Max : Nat := 2 ^ 63 - 1

/-- The panic message of `Duration`'s `Add` implementation in the Rust core
library, raised when the seconds of the sum overflow `u64`. -/
def durationAddPanicMsg : String := "overflow when adding durations"

/-- Seconds of `Duration::from_secs(tv_sec as u64) +
Duration::from_micros(tv_usec as u64)`: the second addend contributes
`tv_usec as u64 / 1_000_000` whole seconds; the sub-second parts are
`0` nanoseconds and `(tv_usec as u64 % 1_000_000) * 1000 < 10^9`
nanoseconds, so they never carry into the seconds. -/
def start_time_duration_secs (tv : timeval) : Nat :=
  as_u64 tv.tv_sec + as_u64 tv.tv_usec / 1000000

/-- Model of `Process::start_time` (`message.rs`): `None` below version 3.
Otherwise the code computes `Duration::from_secs(tv_sec as u64) +
Duration::from_micros(tv_usec as u64)` — a `Duration` addition that panics
when the summed seconds overflow `u64` — and then
`SystemTime::UNIX_EPOCH.checked_add(timestamp)`: `Some` of the resulting
time on success, and `Some(SystemTime::UNIX_EPOCH)` (the epoch itself, not
the encoded value) when the seconds exceed the platform timestamp range.
Times are modelled in microseconds since the Unix epoch; the panic is
modelled as `Except.error`. -/
def Process.start_time (p : Process) : Except String (Option Nat) :=
  if p.version ≥ 3 then
    if start_time_duration_secs p.raw.start_time ≥ u64Bound then
      .error durationAddPanicMsg
    else if start_time_duration_secs p.raw.start_time > i64Max then
      .ok (some 0)
    else
      .ok (some (as_u64 p.raw.start_time.tv_sec * 1000000 + as_u64 p.raw.start_time.tv_usec))
  else .ok none

/-- Model of `es_thread_t`. -/
structure es_thread_t where
  thread_id : Nat

/-! ## Exec / open / rename payloads (fields read by verified accessors) -/

/-- Model of `es_event_exec_t_anon_0_anon_0`: version-gated tail of the exec payload. -/
structure es_event_exec_t_anon_0_anon_0 where
  script : RustPtr es_file_t
  cwd : ShouldNotBeNull es_file_t
  last_fd : Int
  image_cputype : Int
  image_cpusubtype : Int

/-- Model of `es_event_exec_t_anon_0`: the union holding the version-gated tail (the
reserved-bytes arm is not modelled). -/
structure es_event_exec_t_anon_0 where
  anon_0 : es_event_exec_t_anon_0_anon_0

/-- Model of `es_event_exec_t`. -/
structure es_event_exec_t where
  target : ShouldNotBeNull es_process_t
  anon_0 : es_event_exec_t_anon_0

/-- Model of `endpoint-sec::EventExec`: raw exec payload plus message version. -/
structure EventExec where
  raw : es_event_exec_t
  version : Nat

/-- Model of `EventExec::last_fd` (`event_exec.rs`): `None` below version 4, otherwise
the `last_fd` field of the version-gated tail. -/
def EventExec.last_fd (e : EventExec) : Option Int :=
  if e.version ≥ 4 then some e.raw.anon_0.anon_0.last_fd else none

/-- Model of `es_event_open_t`: kernel `fflag` mask (an `i32`) and the file. -/
structure es_event_open_t where
  fflag : Int
  file : ShouldNotBeNull es_file_t

/-- Model of `endpoint-sec::EventOpen`. -/
structure EventOpen where
  raw : es_event_open_t

/-- Model of `EventOpen::fflag`. -/
def EventOpen.fflag (e : EventOpen) : Int := e.raw.fflag

/-- Model of `es_event_rename_t_anon_0_anon_0`: the new-path arm of the destination
union: directory and filename. -/
structure es_event_rename_t_anon_0_anon_0 where
  dir : ShouldNotBeNull es_file_t
  filename : es_string_token_t

/-- Model of `es_event_rename_t_anon_0`: the destination union. Both arms are carried
by the model; which arm an accessor reads is tracked explicitly (see
`EventRename.destination`). -/
structure es_event_rename_t_anon_0 where
  existing_file : ShouldNotBeNull es_file_t
  new_path : es_event_rename_t_anon_0_anon_0

/-- Model of `es_destination_type_t::ES_DESTINATION_TYPE_EXISTING_FILE`. -/
def ES_DESTINATION_TYPE_EXISTING_FILE : Nat := 0
/-- Model of `es_destination_type_t::ES_DESTINATION_TYPE_NEW_PATH`. -/
def ES_DESTINATION_TYPE_NEW_PATH : Nat := 1

/-- Model of `es_event_rename_t`. -/
structure es_event_rename_t where
  source : ShouldNotBeNull es_file_t
  destination_type : Nat
  destination : es_event_rename_t_anon_0

/-- Model of `endpoint-sec::EventRename`. -/
structure EventRename where
  raw : es_event_rename_t

/-- Model of `endpoint-sec::EventRenameDestinationFile`. -/
inductive EventRenameDestinationFile where
  | ExistingFile (f : File)
  | NewPath (directory : File) (filename : List UInt8)

/-- Which arm of the rename destination union an accessor read. -/
inductive RenameDestArm where
  | existing_file
  | new_path
deriving DecidableEq, Repr

/-- Model of `EventRename::destination` (`event_rename.rs`), instrumented with the
list of union arms it reads. It branches on `destination_type` only:
`ES_DESTINATION_TYPE_EXISTING_FILE` reads only `existing_file`,
`ES_DESTINATION_TYPE_NEW_PATH` reads only `new_path`, anything else reads
neither and yields `None`. A null `ShouldNotBeNull` pointer in the selected
arm panics (`Except.error`). -/
def EventRename.destination (e : EventRename) :
    Except String (Option EventRenameDestinationFile) × List RenameDestArm :=
  if e.raw.destination_type = ES_DESTINATION_TYPE_EXISTING_FILE then
    match e.raw.destination.existing_file.as_ref with
    | .error m => (.error m, [.existing_file])
    | .ok f => (.ok (some (.ExistingFile (File.new f))), [.existing_file])
  else if e.raw.destination_type = ES_DESTINATION_TYPE_NEW_PATH then
    let new_path := e.raw.destination.new_path
    match new_path.dir.as_ref with
    | .error m => (.error m, [.new_path])
    | .ok d =>
      (.ok (some (.NewPath (File.new d) new_path.filename.as_os_str)), [.new_path])
  else (.ok none, [])

/-! ## Event wrapper types

One wrapper per event-kind payload (`endpoint-sec/src/event/event_*.rs`).
Wrappers whose payload fields are read by a verified accessor
(`EventExec`, `EventOpen`, `EventRename`) are defined above with their real
fields; the remaining wrappers carry the raw union arm (and, when the source
wrapper stores it, the message version). -/

structure EventKextLoad where raw : RawEventData
structure EventMmap where raw : RawEventData
structure EventMprotect where raw : RawEventData
structure EventMount where raw : RawEventData
structure EventUnlink where raw : RawEventData
structure EventExchangeData where raw : RawEventData
structure EventExit where raw : RawEventData
structure EventKextUnload where raw : RawEventData
structure EventLink where raw : RawEventData
structure EventUnmount where raw : RawEventData
structure EventIoKitOpen where raw : RawEventData
structure EventSetAttrlist where raw : RawEventData
structure EventSetExtAttr where raw : RawEventData
structure EventSetFlags where raw : RawEventData
structure EventSetMode where raw : RawEventData
structure EventSetOwner where raw : RawEventData
structure EventWrite where raw : RawEventData
structure EventFileProviderUpdate where raw : RawEventData
structure EventReadLink where raw : RawEventData
structure EventTruncate where raw : RawEventData
structure EventLookup where raw : RawEventData
structure EventChdir where raw : RawEventData
structure EventGetAttrlist where raw : RawEventData
structure EventStat where raw : RawEventData
structure EventAccess where raw : RawEventData
structure EventChroot where raw : RawEventData
structure EventUTimes where raw : RawEventData
structure EventClone where raw : RawEventData
structure EventFcntl where raw : RawEventData
structure EventGetExtAttr where raw : RawEventData
structure EventListExtAttr where raw : RawEventData
structure EventReadDir where raw : RawEventData
structure EventDeleteExtAttr where raw : RawEventData
structure EventFsGetPath where raw : RawEventData
structure EventDup where raw : RawEventData
structure EventSetTime where raw : RawEventData
structure EventUipcBind where raw : RawEventData
structure EventUipcConnect where raw : RawEventData
structure EventSetAcl where raw : RawEventData
structure EventPtyGrant where raw : RawEventData
structure EventPtyClose where raw : RawEventData
structure EventSearchFs where raw : RawEventData
structure EventCSInvalidated where raw : RawEventData
structure EventRemount where raw : RawEventData
structure EventSetuid where raw : RawEventData
structure EventSetgid where raw : RawEventData
structure EventSeteuid where raw : RawEventData
structure EventSetegid where raw : RawEventData
structure EventSetreuid where raw : RawEventData
structure EventSetregid where raw : RawEventData
structure EventCopyFile where raw : RawEventData
structure EventXpMalwareDetected where raw : RawEventData
structure EventXpMalwareRemediated where raw : RawEventData
structure EventLwSessionLogin where raw : RawEventData
structure EventLwSessionLogout where raw : RawEventData
structure EventLwSessionLock where raw : RawEventData
structure EventLwSessionUnlock where raw : RawEventData
structure EventScreensharingAttach where raw : RawEventData
structure EventScreensharingDetach where raw : RawEventData
structure EventOpensshLogin where raw : RawEventData
structure EventOpensshLogout where raw : RawEventData
structure EventLoginLogin where raw : RawEventData
structure EventLoginLogout where raw : RawEventData

structure EventSignal where
  raw : RawEventData
  version : Nat

structure EventFork where
  raw : RawEventData
  version : Nat

structure EventClose where
  raw : RawEventData
  version : Nat

structure EventCreate where
  raw : RawEventData
  version : Nat

structure EventGetTask where
  raw : RawEventData
  version : Nat

structure EventFileProviderMaterialize where
  raw : RawEventData
  version : Nat

structure EventProcCheck where
  raw : RawEventData
  version : Nat

structure EventProcSuspendResume where
  raw : RawEventData
  version : Nat

structure EventGetTaskName where
  raw : RawEventData
  version : Nat

structure EventTrace where
  raw : RawEventData
  version : Nat

structure EventRemoteThreadCreate where
  raw : RawEventData
  version : Nat

structure EventGetTaskRead where
  raw : RawEventData
  version : Nat

structure EventGetTaskInspect where
  raw : RawEventData
  version : Nat

structure EventAuthentication where
  raw : RawEventData
  version : Nat

structure EventBtmLaunchItemAdd where
  raw : RawEventData
  version : Nat

structure EventBtmLaunchItemRemove where
  raw : RawEventData
  version : Nat

/-! ## The payload union (`es_events_t`)

All union arms are carried side by side; the decoder reads exactly the arm
selected by the kind tag. The arm named `open` in the Rust source is named
`open_` here because `open` is a Lean keyword. Events added in macOS 13.0
or later use nullable non-null-documented pointers (`ShouldNotBeNull`). -/

structure es_events_t where
  close : RawEventData
  create : RawEventData
  exchangedata : RawEventData
  exec : es_event_exec_t
  exit : RawEventData
  file_provider_materialize : RawEventData
  file_provider_update : RawEventData
  fork : RawEventData
  get_task : RawEventData
  iokit_open : RawEventData
  kextload : RawEventData
  kextunload : RawEventData
  link : RawEventData
  lookup : RawEventData
  mmap : RawEventData
  mount : RawEventData
  mprotect : RawEventData
  open_ : es_event_open_t
  readlink : RawEventData
  rename : es_event_rename_t
  setattrlist : RawEventData
  setextattr : RawEventData
  setflags : RawEventData
  setmode : RawEventData
  setowner : RawEventData
  signal : RawEventData
  truncate : RawEventData
  unlink : RawEventData
  unmount : RawEventData
  write : RawEventData
  access : RawEventData
  chdir : RawEventData
  chroot : RawEventData
  clone : RawEventData
  deleteextattr : RawEventData
  dup : RawEventData
  fcntl : RawEventData
  fsgetpath : RawEventData
  getattrlist : RawEventData
  getextattr : RawEventData
  listextattr : RawEventData
  readdir : RawEventData
  remount : RawEventData
  setacl : RawEventData
  settime : RawEventData
  stat : RawEventData
  uipc_bind : RawEventData
  uipc_connect : RawEventData
  utimes : RawEventData
  proc_check : RawEventData
  pty_close : RawEventData
  pty_grant : RawEventData
  cs_invalidated : RawEventData
  get_task_name : RawEventData
  proc_suspend_resume : RawEventData
  remote_thread_create : RawEventData
  searchfs : RawEventData
  trace : RawEventData
  get_task_read : RawEventData
  get_task_inspect : RawEventData
  copyfile : RawEventData
  setgid : RawEventData
  setuid : RawEventData
  setegid : RawEventData
  seteuid : RawEventData
  setregid : RawEventData
  setreuid : RawEventData
  authentication : ShouldNotBeNull RawEventData
  xp_malware_detected : ShouldNotBeNull RawEventData
  xp_malware_remediated : ShouldNotBeNull RawEventData
  lw_session_login : ShouldNotBeNull RawEventData
  lw_session_logout : ShouldNotBeNull RawEventData
  lw_session_lock : ShouldNotBeNull RawEventData
  lw_session_unlock : ShouldNotBeNull RawEventData
  screensharing_attach : ShouldNotBeNull RawEventData
  screensharing_detach : ShouldNotBeNull RawEventData
  openssh_login : ShouldNotBeNull RawEventData
  openssh_logout : ShouldNotBeNull RawEventData
  login_login : ShouldNotBeNull RawEventData
  login_logout : ShouldNotBeNull RawEventData
  btm_launch_item_add : ShouldNotBeNull RawEventData
  btm_launch_item_remove : ShouldNotBeNull RawEventData

/-! ## The `Event` enum (`define_event_enum!` expansion, `event.rs`) -/

inductive Event where
  | AuthExec (e : EventExec)
  | AuthOpen (e : EventOpen)
  | AuthKextLoad (e : EventKextLoad)
  | AuthMmap (e : EventMmap)
  | AuthMprotect (e : EventMprotect)
  | AuthMount (e : EventMount)
  | AuthRename (e : EventRename)
  | AuthSignal (e : EventSignal)
  | AuthUnlink (e : EventUnlink)
  | NotifyExec (e : EventExec)
  | NotifyOpen (e : EventOpen)
  | NotifyFork (e : EventFork)
  | NotifyClose (e : EventClose)
  | NotifyCreate (e : EventCreate)
  | NotifyExchangeData (e : EventExchangeData)
  | NotifyExit (e : EventExit)
  | NotifyGetTask (e : EventGetTask)
  | NotifyKextLoad (e : EventKextLoad)
  | NotifyKextUnload (e : EventKextUnload)
  | NotifyLink (e : EventLink)
  | NotifyMmap (e : EventMmap)
  | NotifyMprotect (e : EventMprotect)
  | NotifyMount (e : EventMount)
  | NotifyUnmount (e : EventUnmount)
  | NotifyIoKitOpen (e : EventIoKitOpen)
  | NotifyRename (e : EventRename)
  | NotifySetAttrlist (e : EventSetAttrlist)
  | NotifySetExtAttr (e : EventSetExtAttr)
  | NotifySetFlags (e : EventSetFlags)
  | NotifySetMode (e : EventSetMode)
  | NotifySetOwner (e : EventSetOwner)
  | NotifySignal (e : EventSignal)
  | NotifyUnlink (e : EventUnlink)
  | NotifyWrite (e : EventWrite)
  | AuthFileProviderMaterialize (e : EventFileProviderMaterialize)
  | NotifyFileProviderMaterialize (e : EventFileProviderMaterialize)
  | AuthFileProviderUpdate (e : EventFileProviderUpdate)
  | NotifyFileProviderUpdate (e : EventFileProviderUpdate)
  | AuthReadLink (e : EventReadLink)
  | NotifyReadLink (e : EventReadLink)
  | AuthTruncate (e : EventTruncate)
  | NotifyTruncate (e : EventTruncate)
  | AuthLink (e : EventLink)
  | NotifyLookup (e : EventLookup)
  | AuthCreate (e : EventCreate)
  | AuthSetAttrlist (e : EventSetAttrlist)
  | AuthSetExtAttr (e : EventSetExtAttr)
  | AuthSetFlags (e : EventSetFlags)
  | AuthSetMode (e : EventSetMode)
  | AuthSetOwner (e : EventSetOwner)
  | AuthChdir (e : EventChdir)
  | NotifyChdir (e : EventChdir)
  | AuthGetAttrlist (e : EventGetAttrlist)
  | NotifyGetAttrlist (e : EventGetAttrlist)
  | NotifyStat (e : EventStat)
  | NotifyAccess (e : EventAccess)
  | AuthChroot (e : EventChroot)
  | NotifyChroot (e : EventChroot)
  | AuthUTimes (e : EventUTimes)
  | NotifyUTimes (e : EventUTimes)
  | AuthClone (e : EventClone)
  | NotifyClone (e : EventClone)
  | NotifyFcntl (e : EventFcntl)
  | AuthGetExtAttr (e : EventGetExtAttr)
  | NotifyGetExtAttr (e : EventGetExtAttr)
  | AuthListExtAttr (e : EventListExtAttr)
  | NotifyListExtAttr (e : EventListExtAttr)
  | AuthReadDir (e : EventReadDir)
  | NotifyReadDir (e : EventReadDir)
  | AuthDeleteExtAttr (e : EventDeleteExtAttr)
  | NotifyDeleteExtAttr (e : EventDeleteExtAttr)
  | AuthFsGetPath (e : EventFsGetPath)
  | NotifyFsGetPath (e : EventFsGetPath)
  | NotifyDup (e : EventDup)
  | AuthSetTime (e : EventSetTime)
  | NotifySetTime (e : EventSetTime)
  | NotifyUipcBind (e : EventUipcBind)
  | AuthUipcBind (e : EventUipcBind)
  | NotifyUipcConnect (e : EventUipcConnect)
  | AuthUipcConnect (e : EventUipcConnect)
  | AuthExchangeData (e : EventExchangeData)
  | AuthSetAcl (e : EventSetAcl)
  | NotifySetAcl (e : EventSetAcl)
  | NotifyPtyGrant (e : EventPtyGrant)
  | NotifyPtyClose (e : EventPtyClose)
  | AuthProcCheck (e : EventProcCheck)
  | NotifyProcCheck (e : EventProcCheck)
  | AuthGetTask (e : EventGetTask)
  | AuthSearchFs (e : EventSearchFs)
  | NotifySearchFs (e : EventSearchFs)
  | AuthFcntl (e : EventFcntl)
  | AuthIoKitOpen (e : EventIoKitOpen)
  | AuthProcSuspendResume (e : EventProcSuspendResume)
  | NotifyProcSuspendResume (e : EventProcSuspendResume)
  | NotifyCSInvalidated (e : EventCSInvalidated)
  | NotifyGetTaskName (e : EventGetTaskName)
  | NotifyTrace (e : EventTrace)
  | NotifyRemoteThreadCreate (e : EventRemoteThreadCreate)
  | AuthRemount (e : EventRemount)
  | NotifyRemount (e : EventRemount)
  | AuthGetTaskRead (e : EventGetTaskRead)
  | NotifyGetTaskRead (e : EventGetTaskRead)
  | NotifyGetTaskInspect (e : EventGetTaskInspect)
  | NotifySetuid (e : EventSetuid)
  | NotifySetgid (e : EventSetgid)
  | NotifySeteuid (e : EventSeteuid)
  | NotifySetegid (e : EventSetegid)
  | NotifySetreuid (e : EventSetreuid)
  | NotifySetregid (e : EventSetregid)
  | AuthCopyFile (e : EventCopyFile)
  | NotifyCopyFile (e : EventCopyFile)
  | NotifyAuthentication (e : EventAuthentication)
  | NotifyXpMalwareDetected (e : EventXpMalwareDetected)
  | NotifyXpMalwareRemediated (e : EventXpMalwareRemediated)
  | NotifyLwSessionLogin (e : EventLwSessionLogin)
  | NotifyLwSessionLogout (e : EventLwSessionLogout)
  | NotifyLwSessionLock (e : EventLwSessionLock)
  | NotifyLwSessionUnlock (e : EventLwSessionUnlock)
  | NotifyScreensharingAttach (e : EventScreensharingAttach)
  | NotifyScreensharingDetach (e : EventScreensharingDetach)
  | NotifyOpensshLogin (e : EventOpensshLogin)
  | NotifyOpensshLogout (e : EventOpensshLogout)
  | NotifyLoginLogin (e : EventLoginLogin)
  | NotifyLoginLogout (e : EventLoginLogout)
  | NotifyBtmLaunchItemAdd (e : EventBtmLaunchItemAdd)
  | NotifyBtmLaunchItemRemove (e : EventBtmLaunchItemRemove)

/-- Model of `es_event_type_t::ES_EVENT_TYPE_AUTH_OPEN` (tag 1). -/
def ES_EVENT_TYPE_AUTH_OPEN : Nat := 1

/-- Model of `es_event_type_t::ES_EVENT_TYPE_LAST`: the computed one-past-the-last
sentinel for the modelled build (last known tag 125,
`ES_EVENT_TYPE_NOTIFY_BTM_LAUNCH_ITEM_REMOVE` from `macos_13_0_0`, plus 1). -/
def ES_EVENT_TYPE_LAST : Nat := 126

/-- Model of `Event::from_raw_parts` (`event.rs`): dispatch on the kind tag value of
`es_event_type_t`; each known tag builds the corresponding variant from the
matching union arm (plus the message version where the wrapper stores one);
tags outside the compiled table fall to the `_ => return None` arm. The
macOS 13.0 arms go through `ShouldNotBeNull::as_opt()?`, so a null pointer
there also yields `none`. -/
def Event.from_raw_parts (event_type : Nat) (raw_event : es_events_t) (version : Nat) :
    Option Event :=
  match event_type with
  | 0 => some (.AuthExec ⟨raw_event.exec, version⟩)          -- ES_EVENT_TYPE_AUTH_EXEC
  | 1 => some (.AuthOpen ⟨raw_event.open_⟩)                  -- ES_EVENT_TYPE_AUTH_OPEN
  | 2 => some (.AuthKextLoad ⟨raw_event.kextload⟩)           -- ES_EVENT_TYPE_AUTH_KEXTLOAD
  | 3 => some (.AuthMmap ⟨raw_event.mmap⟩)                   -- ES_EVENT_TYPE_AUTH_MMAP
  | 4 => some (.AuthMprotect ⟨raw_event.mprotect⟩)           -- ES_EVENT_TYPE_AUTH_MPROTECT
  | 5 => some (.AuthMount ⟨raw_event.mount⟩)                 -- ES_EVENT_TYPE_AUTH_MOUNT
  | 6 => some (.AuthRename ⟨raw_event.rename⟩)               -- ES_EVENT_TYPE_AUTH_RENAME
  | 7 => some (.AuthSignal ⟨raw_event.signal, version⟩)      -- ES_EVENT_TYPE_AUTH_SIGNAL
  | 8 => some (.AuthUnlink ⟨raw_event.unlink⟩)               -- ES_EVENT_TYPE_AUTH_UNLINK
  | 9 => some (.NotifyExec ⟨raw_event.exec, version⟩)        -- ES_EVENT_TYPE_NOTIFY_EXEC
  | 10 => some (.NotifyOpen ⟨raw_event.open_⟩)               -- ES_EVENT_TYPE_NOTIFY_OPEN
  | 11 => some (.NotifyFork ⟨raw_event.fork, version⟩)       -- ES_EVENT_TYPE_NOTIFY_FORK
  | 12 => some (.NotifyClose ⟨raw_event.close, version⟩)     -- ES_EVENT_TYPE_NOTIFY_CLOSE
  | 13 => some (.NotifyCreate ⟨raw_event.create, version⟩)   -- ES_EVENT_TYPE_NOTIFY_CREATE
  | 14 => some (.NotifyExchangeData ⟨raw_event.exchangedata⟩)
  | 15 => some (.NotifyExit ⟨raw_event.exit⟩)                -- ES_EVENT_TYPE_NOTIFY_EXIT
  | 16 => some (.NotifyGetTask ⟨raw_event.get_task, version⟩)
  | 17 => some (.NotifyKextLoad ⟨raw_event.kextload⟩)        -- ES_EVENT_TYPE_NOTIFY_KEXTLOAD
  | 18 => some (.NotifyKextUnload ⟨raw_event.kextunload⟩)
  | 19 => some (.NotifyLink ⟨raw_event.link⟩)                -- ES_EVENT_TYPE_NOTIFY_LINK
  | 20 => some (.NotifyMmap ⟨raw_event.mmap⟩)                -- ES_EVENT_TYPE_NOTIFY_MMAP
  | 21 => some (.NotifyMprotect ⟨raw_event.mprotect⟩)
  | 22 => some (.NotifyMount ⟨raw_event.mount⟩)              -- ES_EVENT_TYPE_NOTIFY_MOUNT
  | 23 => some (.NotifyUnmount ⟨raw_event.unmount⟩)
  | 24 => some (.NotifyIoKitOpen ⟨raw_event.iokit_open⟩)
  | 25 => some (.NotifyRename ⟨raw_event.rename⟩)            -- ES_EVENT_TYPE_NOTIFY_RENAME
  | 26 => some (.NotifySetAttrlist ⟨raw_event.setattrlist⟩)
  | 27 => some (.NotifySetExtAttr ⟨raw_event.setextattr⟩)
  | 28 => some (.NotifySetFlags ⟨raw_event.setflags⟩)
  | 29 => some (.NotifySetMode ⟨raw_event.setmode⟩)
  | 30 => some (.NotifySetOwner ⟨raw_event.setowner⟩)
  | 31 => some (.NotifySignal ⟨raw_event.signal, version⟩)   -- ES_EVENT_TYPE_NOTIFY_SIGNAL
  | 32 => some (.NotifyUnlink ⟨raw_event.unlink⟩)
  | 33 => some (.NotifyWrite ⟨raw_event.write⟩)              -- ES_EVENT_TYPE_NOTIFY_WRITE
  | 34 => some (.AuthFileProviderMaterialize ⟨raw_event.file_provider_materialize, version⟩)
  | 35 => some (.NotifyFileProviderMaterialize ⟨raw_event.file_provider_materialize, version⟩)
  | 36 => some (.AuthFileProviderUpdate ⟨raw_event.file_provider_update⟩)
  | 37 => some (.NotifyFileProviderUpdate ⟨raw_event.file_provider_update⟩)
  | 38 => some (.AuthReadLink ⟨raw_event.readlink⟩)          -- ES_EVENT_TYPE_AUTH_READLINK
  | 39 => some (.NotifyReadLink ⟨raw_event.readlink⟩)
  | 40 => some (.AuthTruncate ⟨raw_event.truncate⟩)          -- ES_EVENT_TYPE_AUTH_TRUNCATE
  | 41 => some (.NotifyTruncate ⟨raw_event.truncate⟩)
  | 42 => some (.AuthLink ⟨raw_event.link⟩)                  -- ES_EVENT_TYPE_AUTH_LINK
  | 43 => some (.NotifyLookup ⟨raw_event.lookup⟩)            -- ES_EVENT_TYPE_NOTIFY_LOOKUP
  | 44 => some (.AuthCreate ⟨raw_event.create, version⟩)     -- ES_EVENT_TYPE_AUTH_CREATE
  | 45 => some (.AuthSetAttrlist ⟨raw_event.setattrlist⟩)
  | 46 => some (.AuthSetExtAttr ⟨raw_event.setextattr⟩)
  | 47 => some (.AuthSetFlags ⟨raw_event.setflags⟩)          -- ES_EVENT_TYPE_AUTH_SETFLAGS
  | 48 => some (.AuthSetMode ⟨raw_event.setmode⟩)            -- ES_EVENT_TYPE_AUTH_SETMODE
  | 49 => some (.AuthSetOwner ⟨raw_event.setowner⟩)          -- ES_EVENT_TYPE_AUTH_SETOWNER
  | 50 => some (.AuthChdir ⟨raw_event.chdir⟩)                -- ES_EVENT_TYPE_AUTH_CHDIR
  | 51 => some (.NotifyChdir ⟨raw_event.chdir⟩)              -- ES_EVENT_TYPE_NOTIFY_CHDIR
  | 52 => some (.AuthGetAttrlist ⟨raw_event.getattrlist⟩)
  | 53 => some (.NotifyGetAttrlist ⟨raw_event.getattrlist⟩)
  | 54 => some (.NotifyStat ⟨raw_event.stat⟩)                -- ES_EVENT_TYPE_NOTIFY_STAT
  | 55 => some (.NotifyAccess ⟨raw_event.access⟩)            -- ES_EVENT_TYPE_NOTIFY_ACCESS
  | 56 => some (.AuthChroot ⟨raw_event.chroot⟩)              -- ES_EVENT_TYPE_AUTH_CHROOT
  | 57 => some (.NotifyChroot ⟨raw_event.chroot⟩)            -- ES_EVENT_TYPE_NOTIFY_CHROOT
  | 58 => some (.AuthUTimes ⟨raw_event.utimes⟩)              -- ES_EVENT_TYPE_AUTH_UTIMES
  | 59 => some (.NotifyUTimes ⟨raw_event.utimes⟩)            -- ES_EVENT_TYPE_NOTIFY_UTIMES
  | 60 => some (.AuthClone ⟨raw_event.clone⟩)                -- ES_EVENT_TYPE_AUTH_CLONE
  | 61 => some (.NotifyClone ⟨raw_event.clone⟩)              -- ES_EVENT_TYPE_NOTIFY_CLONE
  | 62 => some (.NotifyFcntl ⟨raw_event.fcntl⟩)              -- ES_EVENT_TYPE_NOTIFY_FCNTL
  | 63 => some (.AuthGetExtAttr ⟨raw_event.getextattr⟩)
  | 64 => some (.NotifyGetExtAttr ⟨raw_event.getextattr⟩)
  | 65 => some (.AuthListExtAttr ⟨raw_event.listextattr⟩)
  | 66 => some (.NotifyListExtAttr ⟨raw_event.listextattr⟩)
  | 67 => some (.AuthReadDir ⟨raw_event.readdir⟩)            -- ES_EVENT_TYPE_AUTH_READDIR
  | 68 => some (.NotifyReadDir ⟨raw_event.readdir⟩)          -- ES_EVENT_TYPE_NOTIFY_READDIR
  | 69 => some (.AuthDeleteExtAttr ⟨raw_event.deleteextattr⟩)
  | 70 => some (.NotifyDeleteExtAttr ⟨raw_event.deleteextattr⟩)
  | 71 => some (.AuthFsGetPath ⟨raw_event.fsgetpath⟩)        -- ES_EVENT_TYPE_AUTH_FSGETPATH
  | 72 => some (.NotifyFsGetPath ⟨raw_event.fsgetpath⟩)
  | 73 => some (.NotifyDup ⟨raw_event.dup⟩)                  -- ES_EVENT_TYPE_NOTIFY_DUP
  | 74 => some (.AuthSetTime ⟨raw_event.settime⟩)            -- ES_EVENT_TYPE_AUTH_SETTIME
  | 75 => some (.NotifySetTime ⟨raw_event.settime⟩)          -- ES_EVENT_TYPE_NOTIFY_SETTIME
  | 76 => some (.NotifyUipcBind ⟨raw_event.uipc_bind⟩)
  | 77 => some (.AuthUipcBind ⟨raw_event.uipc_bind⟩)         -- ES_EVENT_TYPE_AUTH_UIPC_BIND
  | 78 => some (.NotifyUipcConnect ⟨raw_event.uipc_connect⟩)
  | 79 => some (.AuthUipcConnect ⟨raw_event.uipc_connect⟩)
  | 80 => some (.AuthExchangeData ⟨raw_event.exchangedata⟩)
  | 81 => some (.AuthSetAcl ⟨raw_event.setacl⟩)              -- ES_EVENT_TYPE_AUTH_SETACL
  | 82 => some (.NotifySetAcl ⟨raw_event.setacl⟩)            -- ES_EVENT_TYPE_NOTIFY_SETACL
  | 83 => some (.NotifyPtyGrant ⟨raw_event.pty_grant⟩)
  | 84 => some (.NotifyPtyClose ⟨raw_event.pty_close⟩)
  | 85 => some (.AuthProcCheck ⟨raw_event.proc_check, version⟩)
  | 86 => some (.NotifyProcCheck ⟨raw_event.proc_check, version⟩)
  | 87 => some (.AuthGetTask ⟨raw_event.get_task, version⟩)  -- ES_EVENT_TYPE_AUTH_GET_TASK
  | 88 => some (.AuthSearchFs ⟨raw_event.searchfs⟩)          -- ES_EVENT_TYPE_AUTH_SEARCHFS
  | 89 => some (.NotifySearchFs ⟨raw_event.searchfs⟩)
  | 90 => some (.AuthFcntl ⟨raw_event.fcntl⟩)                -- ES_EVENT_TYPE_AUTH_FCNTL
  | 91 => some (.AuthIoKitOpen ⟨raw_event.iokit_open⟩)
  | 92 => some (.AuthProcSuspendResume ⟨raw_event.proc_suspend_resume, version⟩)
  | 93 => some (.NotifyProcSuspendResume ⟨raw_event.proc_suspend_resume, version⟩)
  | 94 => some (.NotifyCSInvalidated ⟨raw_event.cs_invalidated⟩)
  | 95 => some (.NotifyGetTaskName ⟨raw_event.get_task_name, version⟩)
  | 96 => some (.NotifyTrace ⟨raw_event.trace, version⟩)     -- ES_EVENT_TYPE_NOTIFY_TRACE
  | 97 => some (.NotifyRemoteThreadCreate ⟨raw_event.remote_thread_create, version⟩)
  | 98 => some (.AuthRemount ⟨raw_event.remount⟩)            -- ES_EVENT_TYPE_AUTH_REMOUNT
  | 99 => some (.NotifyRemount ⟨raw_event.remount⟩)          -- ES_EVENT_TYPE_NOTIFY_REMOUNT
  | 100 => some (.AuthGetTaskRead ⟨raw_event.get_task_read, version⟩)
  | 101 => some (.NotifyGetTaskRead ⟨raw_event.get_task_read, version⟩)
  | 102 => some (.NotifyGetTaskInspect ⟨raw_event.get_task_inspect, version⟩)
  | 103 => some (.NotifySetuid ⟨raw_event.setuid⟩)           -- ES_EVENT_TYPE_NOTIFY_SETUID
  | 104 => some (.NotifySetgid ⟨raw_event.setgid⟩)           -- ES_EVENT_TYPE_NOTIFY_SETGID
  | 105 => some (.NotifySeteuid ⟨raw_event.seteuid⟩)
  | 106 => some (.NotifySetegid ⟨raw_event.setegid⟩)
  | 107 => some (.NotifySetreuid ⟨raw_event.setreuid⟩)
  | 108 => some (.NotifySetregid ⟨raw_event.setregid⟩)
  | 109 => some (.AuthCopyFile ⟨raw_event.copyfile⟩)         -- ES_EVENT_TYPE_AUTH_COPYFILE
  | 110 => some (.NotifyCopyFile ⟨raw_event.copyfile⟩)
  | 111 =>                                                   -- ES_EVENT_TYPE_NOTIFY_AUTHENTICATION
    match raw_event.authentication.as_opt with
    | some r => some (.NotifyAuthentication ⟨r, version⟩)
    | none => none
  | 112 =>
    match raw_event.xp_malware_detected.as_opt with
    | some r => some (.NotifyXpMalwareDetected ⟨r⟩)
    | none => none
  | 113 =>
    match raw_event.xp_malware_remediated.as_opt with
    | some r => some (.NotifyXpMalwareRemediated ⟨r⟩)
    | none => none
  | 114 =>
    match raw_event.lw_session_login.as_opt with
    | some r => some (.NotifyLwSessionLogin ⟨r⟩)
    | none => none
  | 115 =>
    match raw_event.lw_session_logout.as_opt with
    | some r => some (.NotifyLwSessionLogout ⟨r⟩)
    | none => none
  | 116 =>
    match raw_event.lw_session_lock.as_opt with
    | some r => some (.NotifyLwSessionLock ⟨r⟩)
    | none => none
  | 117 =>
    match raw_event.lw_session_unlock.as_opt with
    | some r => some (.NotifyLwSessionUnlock ⟨r⟩)
    | none => none
  | 118 =>
    match raw_event.screensharing_attach.as_opt with
    | some r => some (.NotifyScreensharingAttach ⟨r⟩)
    | none => none
  | 119 =>
    match raw_event.screensharing_detach.as_opt with
    | some r => some (.NotifyScreensharingDetach ⟨r⟩)
    | none => none
  | 120 =>
    match raw_event.openssh_login.as_opt with
    | some r => some (.NotifyOpensshLogin ⟨r⟩)
    | none => none
  | 121 =>
    match raw_event.openssh_logout.as_opt with
    | some r => some (.NotifyOpensshLogout ⟨r⟩)
    | none => none
  | 122 =>
    match raw_event.login_login.as_opt with
    | some r => some (.NotifyLoginLogin ⟨r⟩)
    | none => none
  | 123 =>
    match raw_event.login_logout.as_opt with
    | some r => some (.NotifyLoginLogout ⟨r⟩)
    | none => none
  | 124 =>
    match raw_event.btm_launch_item_add.as_opt with
    | some r => some (.NotifyBtmLaunchItemAdd ⟨r, version⟩)
    | none => none
  | 125 =>
    match raw_event.btm_launch_item_remove.as_opt with
    | some r => some (.NotifyBtmLaunchItemRemove ⟨r, version⟩)
    | none => none
  | _ => none

/-- Model of `endpoint-sec::ExpectedResponseType` (`event.rs`). -/
inductive ExpectedResponseType where
  | Auth : ExpectedResponseType
  | Flags (flags : Nat) : ExpectedResponseType
deriving DecidableEq, Repr

/-- Model of `Event::expected_response_type` (`event.rs`): the per-variant response
classification from the `define_event_enum!` table. The `AuthOpen` arm is
`Some(ExpectedResponseType::Flags { flags: e.fflag() as u32 })`; every other
`Auth*` arm is `Some(Auth)`; every `Notify*` arm is `None`. -/
def Event.expected_response_type : Event → Option ExpectedResponseType
  | .AuthExec _ => some .Auth
  | .AuthOpen e => some (.Flags (i32_as_u32 e.fflag))
  | .AuthKextLoad _ => some .Auth
  | .AuthMmap _ => some .Auth
  | .AuthMprotect _ => some .Auth
  | .AuthMount _ => some .Auth
  | .AuthRename _ => some .Auth
  | .AuthSignal _ => some .Auth
  | .AuthUnlink _ => some .Auth
  | .NotifyExec _ => none
  | .NotifyOpen _ => none
  | .NotifyFork _ => none
  | .NotifyClose _ => none
  | .NotifyCreate _ => none
  | .NotifyExchangeData _ => none
  | .NotifyExit _ => none
  | .NotifyGetTask _ => none
  | .NotifyKextLoad _ => none
  | .NotifyKextUnload _ => none
  | .NotifyLink _ => none
  | .NotifyMmap _ => none
  | .NotifyMprotect _ => none
  | .NotifyMount _ => none
  | .NotifyUnmount _ => none
  | .NotifyIoKitOpen _ => none
  | .NotifyRename _ => none
  | .NotifySetAttrlist _ => none
  | .NotifySetExtAttr _ => none
  | .NotifySetFlags _ => none
  | .NotifySetMode _ => none
  | .NotifySetOwner _ => none
  | .NotifySignal _ => none
  | .NotifyUnlink _ => none
  | .NotifyWrite _ => none
  | .AuthFileProviderMaterialize _ => some .Auth
  | .NotifyFileProviderMaterialize _ => none
  | .AuthFileProviderUpdate _ => some .Auth
  | .NotifyFileProviderUpdate _ => none
  | .AuthReadLink _ => some .Auth
  | .NotifyReadLink _ => none
  | .AuthTruncate _ => some .Auth
  | .NotifyTruncate _ => none
  | .AuthLink _ => some .Auth
  | .NotifyLookup _ => none
  | .AuthCreate _ => some .Auth
  | .AuthSetAttrlist _ => some .Auth
  | .AuthSetExtAttr _ => some .Auth
  | .AuthSetFlags _ => some .Auth
  | .AuthSetMode _ => some .Auth
  | .AuthSetOwner _ => some .Auth
  | .AuthChdir _ => some .Auth
  | .NotifyChdir _ => none
  | .AuthGetAttrlist _ => some .Auth
  | .NotifyGetAttrlist _ => none
  | .NotifyStat _ => none
  | .NotifyAccess _ => none
  | .AuthChroot _ => some .Auth
  | .NotifyChroot _ => none
  | .AuthUTimes _ => some .Auth
  | .NotifyUTimes _ => none
  | .AuthClone _ => some .Auth
  | .NotifyClone _ => none
  | .NotifyFcntl _ => none
  | .AuthGetExtAttr _ => some .Auth
  | .NotifyGetExtAttr _ => none
  | .AuthListExtAttr _ => some .Auth
  | .NotifyListExtAttr _ => none
  | .AuthReadDir _ => some .Auth
  | .NotifyReadDir _ => none
  | .AuthDeleteExtAttr _ => some .Auth
  | .NotifyDeleteExtAttr _ => none
  | .AuthFsGetPath _ => some .Auth
  | .NotifyFsGetPath _ => none
  | .NotifyDup _ => none
  | .AuthSetTime _ => some .Auth
  | .NotifySetTime _ => none
  | .NotifyUipcBind _ => none
  | .AuthUipcBind _ => some .Auth
  | .NotifyUipcConnect _ => none
  | .AuthUipcConnect _ => some .Auth
  | .AuthExchangeData _ => some .Auth
  | .AuthSetAcl _ => some .Auth
  | .NotifySetAcl _ => none
  | .NotifyPtyGrant _ => none
  | .NotifyPtyClose _ => none
  | .AuthProcCheck _ => some .Auth
  | .NotifyProcCheck _ => none
  | .AuthGetTask _ => some .Auth
  | .AuthSearchFs _ => some .Auth
  | .NotifySearchFs _ => none
  | .AuthFcntl _ => some .Auth
  | .AuthIoKitOpen _ => some .Auth
  | .AuthProcSuspendResume _ => some .Auth
  | .NotifyProcSuspendResume _ => none
  | .NotifyCSInvalidated _ => none
  | .NotifyGetTaskName _ => none
  | .NotifyTrace _ => none
  | .NotifyRemoteThreadCreate _ => none
  | .AuthRemount _ => some .Auth
  | .NotifyRemount _ => none
  | .AuthGetTaskRead _ => some .Auth
  | .NotifyGetTaskRead _ => none
  | .NotifyGetTaskInspect _ => none
  | .NotifySetuid _ => none
  | .NotifySetgid _ => none
  | .NotifySeteuid _ => none
  | .NotifySetegid _ => none
  | .NotifySetreuid _ => none
  | .NotifySetregid _ => none
  | .AuthCopyFile _ => some .Auth
  | .NotifyCopyFile _ => none
  | .NotifyAuthentication _ => none
  | .NotifyXpMalwareDetected _ => none
  | .NotifyXpMalwareRemediated _ => none
  | .NotifyLwSessionLogin _ => none
  | .NotifyLwSessionLogout _ => none
  | .NotifyLwSessionLock _ => none
  | .NotifyLwSessionUnlock _ => none
  | .NotifyScreensharingAttach _ => none
  | .NotifyScreensharingDetach _ => none
  | .NotifyOpensshLogin _ => none
  | .NotifyOpensshLogout _ => none
  | .NotifyLoginLogin _ => none
  | .NotifyLoginLogout _ => none
  | .NotifyBtmLaunchItemAdd _ => none
  | .NotifyBtmLaunchItemRemove _ => none

/-- The kind tag each `Event` variant corresponds to (the `es_event_type_t`
constant of its `define_event_enum!` row). Used to state that the decoder
maps each tag to the matching variant. -/
def Event.typeTag : Event → Nat
  | .AuthExec _ => 0
  | .AuthOpen _ => 1
  | .AuthKextLoad _ => 2
  | .AuthMmap _ => 3
  | .AuthMprotect _ => 4
  | .AuthMount _ => 5
  | .AuthRename _ => 6
  | .AuthSignal _ => 7
  | .AuthUnlink _ => 8
  | .NotifyExec _ => 9
  | .NotifyOpen _ => 10
  | .NotifyFork _ => 11
  | .NotifyClose _ => 12
  | .NotifyCreate _ => 13
  | .NotifyExchangeData _ => 14
  | .NotifyExit _ => 15
  | .NotifyGetTask _ => 16
  | .NotifyKextLoad _ => 17
  | .NotifyKextUnload _ => 18
  | .NotifyLink _ => 19
  | .NotifyMmap _ => 20
  | .NotifyMprotect _ => 21
  | .NotifyMount _ => 22
  | .NotifyUnmount _ => 23
  | .NotifyIoKitOpen _ => 24
  | .NotifyRename _ => 25
  | .NotifySetAttrlist _ => 26
  | .NotifySetExtAttr _ => 27
  | .NotifySetFlags _ => 28
  | .NotifySetMode _ => 29
  | .NotifySetOwner _ => 30
  | .NotifySignal _ => 31
  | .NotifyUnlink _ => 32
  | .NotifyWrite _ => 33
  | .AuthFileProviderMaterialize _ => 34
  | .NotifyFileProviderMaterialize _ => 35
  | .AuthFileProviderUpdate _ => 36
  | .NotifyFileProviderUpdate _ => 37
  | .AuthReadLink _ => 38
  | .NotifyReadLink _ => 39
  | .AuthTruncate _ => 40
  | .NotifyTruncate _ => 41
  | .AuthLink _ => 42
  | .NotifyLookup _ => 43
  | .AuthCreate _ => 44
  | .AuthSetAttrlist _ => 45
  | .AuthSetExtAttr _ => 46
  | .AuthSetFlags _ => 47
  | .AuthSetMode _ => 48
  | .AuthSetOwner _ => 49
  | .AuthChdir _ => 50
  | .NotifyChdir _ => 51
  | .AuthGetAttrlist _ => 52
  | .NotifyGetAttrlist _ => 53
  | .NotifyStat _ => 54
  | .NotifyAccess _ => 55
  | .AuthChroot _ => 56
  | .NotifyChroot _ => 57
  | .AuthUTimes _ => 58
  | .NotifyUTimes _ => 59
  | .AuthClone _ => 60
  | .NotifyClone _ => 61
  | .NotifyFcntl _ => 62
  | .AuthGetExtAttr _ => 63
  | .NotifyGetExtAttr _ => 64
  | .AuthListExtAttr _ => 65
  | .NotifyListExtAttr _ => 66
  | .AuthReadDir _ => 67
  | .NotifyReadDir _ => 68
  | .AuthDeleteExtAttr _ => 69
  | .NotifyDeleteExtAttr _ => 70
  | .AuthFsGetPath _ => 71
  | .NotifyFsGetPath _ => 72
  | .NotifyDup _ => 73
  | .AuthSetTime _ => 74
  | .NotifySetTime _ => 75
  | .NotifyUipcBind _ => 76
  | .AuthUipcBind _ => 77
  | .NotifyUipcConnect _ => 78
  | .AuthUipcConnect _ => 79
  | .AuthExchangeData _ => 80
  | .AuthSetAcl _ => 81
  | .NotifySetAcl _ => 82
  | .NotifyPtyGrant _ => 83
  | .NotifyPtyClose _ => 84
  | .AuthProcCheck _ => 85
  | .NotifyProcCheck _ => 86
  | .AuthGetTask _ => 87
  | .AuthSearchFs _ => 88
  | .NotifySearchFs _ => 89
  | .AuthFcntl _ => 90
  | .AuthIoKitOpen _ => 91
  | .AuthProcSuspendResume _ => 92
  | .NotifyProcSuspendResume _ => 93
  | .NotifyCSInvalidated _ => 94
  | .NotifyGetTaskName _ => 95
  | .NotifyTrace _ => 96
  | .NotifyRemoteThreadCreate _ => 97
  | .AuthRemount _ => 98
  | .NotifyRemount _ => 99
  | .AuthGetTaskRead _ => 100
  | .NotifyGetTaskRead _ => 101
  | .NotifyGetTaskInspect _ => 102
  | .NotifySetuid _ => 103
  | .NotifySetgid _ => 104
  | .NotifySeteuid _ => 105
  | .NotifySetegid _ => 106
  | .NotifySetreuid _ => 107
  | .NotifySetregid _ => 108
  | .AuthCopyFile _ => 109
  | .NotifyCopyFile _ => 110
  | .NotifyAuthentication _ => 111
  | .NotifyXpMalwareDetected _ => 112
  | .NotifyXpMalwareRemediated _ => 113
  | .NotifyLwSessionLogin _ => 114
  | .NotifyLwSessionLogout _ => 115
  | .NotifyLwSessionLock _ => 116
  | .NotifyLwSessionUnlock _ => 117
  | .NotifyScreensharingAttach _ => 118
  | .NotifyScreensharingDetach _ => 119
  | .NotifyOpensshLogin _ => 120
  | .NotifyOpensshLogout _ => 121
  | .NotifyLoginLogin _ => 122
  | .NotifyLoginLogout _ => 123
  | .NotifyBtmLaunchItemAdd _ => 124
  | .NotifyBtmLaunchItemRemove _ => 125

/-- Modelled from the spec: the fixed reference table of request-type
(`Auth*`) kind tags, by their `es_event_type_t` values (the tags whose
`define_event_enum!` row is an authorization request). All other known
tags are notify-type. -/
def authRequestTags : List Nat :=
  [0, 1, 2, 3, 4, 5, 6, 7, 8, 34, 36, 38, 40, 42, 44, 45, 46, 47, 48, 49,
   50, 52, 56, 58, 60, 63, 65, 67, 69, 71, 74, 77, 79, 80, 81,
   85, 87, 88, 90, 91, 92, 98, 100, 109]

/-- The kind tags whose union arm is a nullable pointer (events added in
macOS 13.0 or later, decoded through `as_opt()?`). -/
def pointerArmTags : List Nat :=
  [111, 112, 113, 114, 115, 116, 117, 118, 119, 120, 121, 122, 123, 124, 125]

/-- The nullable union arm selected by a macOS 13.0+ kind tag (`none` for
any other tag). -/
def pointerArm (event_type : Nat) (raw_event : es_events_t) :
    Option (ShouldNotBeNull RawEventData) :=
  match event_type with
  | 111 => some raw_event.authentication
  | 112 => some raw_event.xp_malware_detected
  | 113 => some raw_event.xp_malware_remediated
  | 114 => some raw_event.lw_session_login
  | 115 => some raw_event.lw_session_logout
  | 116 => some raw_event.lw_session_lock
  | 117 => some raw_event.lw_session_unlock
  | 118 => some raw_event.screensharing_attach
  | 119 => some raw_event.screensharing_detach
  | 120 => some raw_event.openssh_login
  | 121 => some raw_event.openssh_logout
  | 122 => some raw_event.login_login
  | 123 => some raw_event.login_logout
  | 124 => some raw_event.btm_launch_item_add
  | 125 => some raw_event.btm_launch_item_remove
  | _ => none

/-- Modelled from the spec: the golden response-classification table —
`None` for notify-type tags, `Auth` for request-type tags, except the open
request which answers with a flags mask echoing the event's native `fflag`
(cast to `u32`). -/
def goldenExpectedResponse (event_type : Nat) (raw_event : es_events_t) :
    Option ExpectedResponseType :=
  if authRequestTags.contains event_type then
    if event_type = ES_EVENT_TYPE_AUTH_OPEN then
      some (.Flags (i32_as_u32 raw_event.open_.fflag))
    else some .Auth
  else none

/-! ## Runtime version gate and record lifecycle (`lib.rs`, `message.rs`)

`versioned_call!` expands to
`if cfg!(feature = "macos_11_0_0") && is_version_or_more(11, 0, 0) { .. } else { .. }`:
a compile-time feature test conjoined with a *runtime* read of the
process-wide version gate set by `set_runtime_version`. -/

/-- The process-wide runtime version gate (`endpoint-sec::version`): the
`MAJOR`/`MINOR`/`PATCH` atomics, as a triple. -/
structure RuntimeVersion where
  major : Nat
  minor : Nat
  patch : Nat
deriving DecidableEq, Repr

/-- Model of `version::is_version_or_more`: lexicographic comparison of the stored
runtime triple against the requested one (Rust tuple `>=`). -/
def is_version_or_more (rv : RuntimeVersion) (major minor patch : Nat) : Bool :=
  if rv.major = major then
    if rv.minor = minor then decide (patch ≤ rv.patch)
    else decide (minor < rv.minor)
  else decide (major < rv.major)

/-- The build-time feature configuration relevant to the record lifecycle:
whether the crate was compiled with `feature = "macos_11_0_0"`. -/
structure BuildConfig where
  macos_11_0_0 : Bool
deriving DecidableEq, Repr

/-- The branch taken by `versioned_call!` in `Message::from_raw` and
`Drop for Message`: retain/release regime iff the `macos_11_0_0` feature is
compiled in *and* the runtime gate is at least 11.0.0. -/
def retainRegime (cfg : BuildConfig) (rv : RuntimeVersion) : Bool :=
  cfg.macos_11_0_0 && is_version_or_more rv 11 0 0

/-- A call into the instrumented fake Endpoint Security layer. Pointers are
names (`Nat`). `es_copy_message src dst` records that copying `src`
allocated the duplicate `dst`. -/
inductive ESCall where
  | es_copy_message (src dst : Nat)
  | es_free_message (p : Nat)
  | es_retain_message (p : Nat)
  | es_release_message (p : Nat)
deriving DecidableEq, Repr

/-- State of the fake OS layer: the next fresh pointer `es_copy_message`
will hand out. -/
structure FakeOS where
  next_ptr : Nat
deriving DecidableEq, Repr

/-- Model of `endpoint-sec::Message`: a non-null handle to an `es_message_t`. -/
structure MessageHandle where
  ptr : Nat
deriving DecidableEq, Repr

/-- Model of `Message::from_raw` (`message.rs`): under `versioned_call!`, either
`es_retain_message(msg)` returning the same handle, or `es_copy_message(msg)`
returning the (fresh, non-null) duplicate. Returns the new handle, the fake
OS state, and the calls performed. -/
def Message.from_raw (cfg : BuildConfig) (rv : RuntimeVersion) (os : FakeOS)
    (msg : Nat) : MessageHandle × FakeOS × List ESCall :=
  if retainRegime cfg rv then
    (⟨msg⟩, os, [.es_retain_message msg])
  else
    let dst := os.next_ptr
    (⟨dst⟩, ⟨os.next_ptr + 1⟩, [.es_copy_message msg dst])

/-- Model of `Clone for Message` (`message.rs`): `unsafe { Self::from_raw(self.0) }`. -/
def Message.clone (cfg : BuildConfig) (rv : RuntimeVersion) (os : FakeOS)
    (m : MessageHandle) : MessageHandle × FakeOS × List ESCall :=
  Message.from_raw cfg rv os m.ptr

/-- Model of `Drop for Message` (`message.rs`): under `versioned_call!`, either
`es_release_message` or `es_free_message` on the owned handle. -/
def Message.drop (cfg : BuildConfig) (rv : RuntimeVersion)
    (m : MessageHandle) : List ESCall :=
  if retainRegime cfg rv then [.es_release_message m.ptr]
  else [.es_free_message m.ptr]

/-- The lifecycle scenario of the spec's single-release property: construct
one `Message` from a delivered raw handle, clone it twice, then drop all
three handles; the result is the full call trace. -/
def cloneTwiceDropAll (cfg : BuildConfig) (rv : RuntimeVersion) (os : FakeOS)
    (raw : Nat) : List ESCall :=
  let r1 := Message.from_raw cfg rv os raw
  let m1 := r1.1
  let r2 := Message.clone cfg rv r1.2.1 m1
  let m2 := r2.1
  let r3 := Message.clone cfg rv r2.2.1 m2
  let m3 := r3.1
  r1.2.2 ++ r2.2.2 ++ r3.2.2 ++
    Message.drop cfg rv m3 ++ Message.drop cfg rv m2 ++ Message.drop cfg rv m1

/-- Number of `es_copy_message` calls in a trace. -/
def countCopies (t : List ESCall) : Nat :=
  (t.filter fun c => match c with | .es_copy_message _ _ => true | _ => false).length

/-- Number of `es_free_message` calls in a trace. -/
def countFrees (t : List ESCall) : Nat :=
  (t.filter fun c => match c with | .es_free_message _ => true | _ => false).length

/-- Number of `es_retain_message` calls in a trace. -/
def countRetains (t : List ESCall) : Nat :=
  (t.filter fun c => match c with | .es_retain_message _ => true | _ => false).length

/-- Number of `es_release_message` calls in a trace. -/
def countReleases (t : List ESCall) : Nat :=
  (t.filter fun c => match c with | .es_release_message _ => true | _ => false).length

/-- The duplicate pointers allocated by the `es_copy_message` calls of a
trace, in order. -/
def copiedPtrs (t : List ESCall) : List Nat :=
  t.filterMap fun c => match c with | .es_copy_message _ dst => some dst | _ => none

/-- The pointers passed to `es_free_message` in a trace, in order. -/
def freedPtrs (t : List ESCall) : List Nat :=
  t.filterMap fun c => match c with | .es_free_message p => some p | _ => none

/-! ## Top-level record and version-gated accessors (`message.rs`) -/

/-- Model of `timespec`. -/
structure timespec where
  tv_sec : Int
  tv_nsec : Int

/-- Model of `es_message_t` (`endpoint-sec-sys/src/message.rs`): the fields used by
the verified accessors (the action union is kept opaque). -/
structure es_message_t where
  version : Nat
  time : timespec
  mach_time : Nat
  deadline : Nat
  process : ShouldNotBeNull es_process_t
  seq_num : Nat
  action_type : Nat
  action : RawEventData
  event_type : Nat
  event : es_events_t
  thread : RustPtr es_thread_t
  global_seq_num : Nat

/-- Model of `Message::seq_num` (`message.rs`): per-client event sequence number on
version 2 and later, otherwise `None`. -/
def Message.seq_num (m : es_message_t) : Option Nat :=
  if m.version ≥ 2 then some m.seq_num else none

/-- Model of `Message::global_seq_num` (`message.rs`): per-client global sequence
number on version 4 and later, otherwise `None`. -/
def Message.global_seq_num (m : es_message_t) : Option Nat :=
  if m.version ≥ 4 then some m.global_seq_num else none

/-- Model of `endpoint-sec::Thread` wrapper. -/
structure Thread where
  raw : es_thread_t

/-- Model of `Message::thread` (`message.rs`): on version 4 and later, the nullable
thread pointer mapped through `Thread::new`; otherwise `None`. -/
def Message.thread (m : es_message_t) : Option Thread :=
  if m.version ≥ 4 then m.thread.as_ref.map Thread.mk else none

/-- Model of `Message::event` (`message.rs`): `Event::from_raw_parts(event_type,
&event, version)` on the message's own fields. -/
def Message.event (m : es_message_t) : Option Event :=
  Event.from_raw_parts m.event_type m.event m.version

/-! ## Indexed array iterators (`make_event_data_iterator!`, `event.rs`)

The macro generates, for each array-like field, an iterator over a stored
element count (a `u32`) and a cursor, reading elements through an
index-reader FFI function and a raw-to-wrapped conversion. The model is
parameterized by the reader and the conversion; every operation also
returns the list of indices passed to the underlying reader. -/

/-- Model of `u32::MAX`. -/
def u32Max : Nat := 4294967295

/-- Model of `u32` saturating increment (`self.current.saturating_add(1)`). -/
def satSucc32 (n : Nat) : Nat := min (n + 1) u32Max

/-- The state generated by `make_event_data_iterator!`: stored element
count and cursor (both `u32` in the source, hence `≤ u32Max`). -/
structure EventDataIter where
  count : Nat
  current : Nat
deriving DecidableEq, Repr

/-- The iterator's `new`: cursor at zero, count from the event's
element-count accessor. -/
def EventDataIter.new (count : Nat) : EventDataIter := ⟨count, 0⟩

/-- The generated `Iterator::next`: if `current < count`, read the element
at `current` through the reader, convert it, and saturating-increment the
cursor; otherwise yield nothing. The third component is the list of indices
passed to the underlying reader. -/
def EventDataIter.next {ρ α : Type} (reader : Nat → ρ) (conv : ρ → α)
    (it : EventDataIter) : Option α × EventDataIter × List Nat :=
  if it.current < it.count then
    let raw_token := reader it.current
    (some (conv raw_token), ⟨it.count, satSucc32 it.current⟩, [it.current])
  else (none, it, [])

/-- The generated `Iterator::nth`: set the cursor to `n` clamped to
`u32::MAX` (`n.min(u32::MAX as usize) as u32`), then `next()`. -/
def EventDataIter.nth {ρ α : Type} (reader : Nat → ρ) (conv : ρ → α)
    (it : EventDataIter) (n : Nat) : Option α × EventDataIter × List Nat :=
  EventDataIter.next reader conv ⟨it.count, min n u32Max⟩

/-- The generated `Iterator::last`: set the cursor to
`count.saturating_sub(1)`, then `next()`. -/
def EventDataIter.last {ρ α : Type} (reader : Nat → ρ) (conv : ρ → α)
    (it : EventDataIter) : Option α × EventDataIter × List Nat :=
  EventDataIter.next reader conv ⟨it.count, it.count - 1⟩

/-- The generated `ExactSizeIterator::len`:
`count.saturating_sub(current)`. -/
def EventDataIter.len (it : EventDataIter) : Nat := it.count - it.current

/-- The generated `Iterator::size_hint`: `(len, Some(len))`. -/
def EventDataIter.size_hint (it : EventDataIter) : Nat × Option Nat :=
  (it.len, some it.len)

/-- The generated `Iterator::count`: report `len` and exhaust the cursor. -/
def EventDataIter.countConsuming (it : EventDataIter) : Nat × EventDataIter :=
  (it.len, ⟨it.count, it.count⟩)

/-- Repeatedly call `next` (up to `fuel` times, enough fuel exhausts the
iterator), collecting the yielded elements and the full reader trace. -/
def EventDataIter.collect {ρ α : Type} (reader : Nat → ρ) (conv : ρ → α) :
    Nat → EventDataIter → List α × List Nat
  | 0, _ => ([], [])
  | fuel + 1, it =>
    match EventDataIter.next reader conv it with
    | (none, _, _) => ([], [])
    | (some a, it2, tr) =>
      let rest := EventDataIter.collect reader conv fuel it2
      (a :: rest.1, tr ++ rest.2)

/-! ## Concrete sample values (used by witnesses and counterexamples) -/

/-- A sample byte-memory: byte `65` everywhere. -/
def memA : Nat → UInt8 := fun _ => 65

/-- A sample non-null, non-empty string token. -/
def tokenABC : es_string_token_t := ⟨3, some memA⟩

/-- A string token with a null data pointer but non-zero length. -/
def tokenNullPtr : es_string_token_t := ⟨3, none⟩

/-- An empty string token. -/
def tokenEmpty : es_string_token_t := ⟨0, some memA⟩

/-- A sample file record. -/
def sampleFile : es_file_t := ⟨tokenABC, false, ⟨0⟩⟩

/-- A sample process record with a null TTY pointer. -/
def sampleProcessNullTty : es_process_t :=
  ⟨⟨0⟩, 1, 1, 1, 1, 0, false, false, [], tokenEmpty, tokenEmpty,
   ⟨.valid sampleFile⟩, .null, ⟨100, 5⟩, ⟨0⟩, ⟨0⟩⟩

/-- A sample process record whose TTY pointer is valid. -/
def sampleProcessWithTty : es_process_t :=
  ⟨⟨0⟩, 1, 1, 1, 1, 0, false, false, [], tokenEmpty, tokenEmpty,
   ⟨.valid sampleFile⟩, .valid sampleFile, ⟨100, 5⟩, ⟨0⟩, ⟨0⟩⟩

/-- A sample process record whose start time exceeds the platform timestamp
range (`tv_sec = -1` reads as `u64::MAX` seconds), triggering the
checked-add clamp to the epoch. -/
def sampleProcessEpochClamp : es_process_t :=
  { sampleProcessNullTty with start_time := ⟨-1, 0⟩ }

/-- A sample process record whose start time overflows the `Duration`
addition itself (`tv_sec = -1` and `tv_usec = -1` both read as `u64::MAX`). -/
def sampleProcessDurationPanic : es_process_t :=
  { sampleProcessNullTty with start_time := ⟨-1, -1⟩ }

/-- A sample exec payload. -/
def sampleExec : es_event_exec_t :=
  ⟨⟨.valid sampleProcessNullTty⟩, ⟨⟨.null, ⟨.valid sampleFile⟩, 7, 0, 0⟩⟩⟩

/-- A sample open payload with `fflag = 5`. -/
def sampleOpen : es_event_open_t := ⟨5, ⟨.valid sampleFile⟩⟩

/-- A sample rename payload with destination type "new path". -/
def sampleRename : es_event_rename_t :=
  ⟨⟨.valid sampleFile⟩, ES_DESTINATION_TYPE_NEW_PATH,
   ⟨⟨.valid sampleFile⟩, ⟨⟨.valid sampleFile⟩, tokenABC⟩⟩⟩

/-- A sample payload union. All macOS 13.0+ pointer arms are null, which is
exactly what the unknown/known decoding counterexample needs. -/
def sampleEvents : es_events_t :=
  ⟨⟨12⟩, ⟨13⟩, ⟨14⟩, sampleExec, ⟨15⟩, ⟨34⟩, ⟨36⟩, ⟨11⟩, ⟨16⟩, ⟨24⟩, ⟨2⟩,
   ⟨18⟩, ⟨19⟩, ⟨43⟩, ⟨3⟩, ⟨5⟩, ⟨4⟩, sampleOpen, ⟨38⟩, sampleRename, ⟨26⟩,
   ⟨27⟩, ⟨28⟩, ⟨29⟩, ⟨30⟩, ⟨7⟩, ⟨40⟩, ⟨8⟩, ⟨23⟩, ⟨33⟩, ⟨55⟩, ⟨50⟩, ⟨56⟩,
   ⟨60⟩, ⟨69⟩, ⟨73⟩, ⟨62⟩, ⟨71⟩, ⟨52⟩, ⟨63⟩, ⟨65⟩, ⟨67⟩, ⟨98⟩, ⟨81⟩, ⟨74⟩,
   ⟨54⟩, ⟨76⟩, ⟨78⟩, ⟨58⟩, ⟨85⟩, ⟨84⟩, ⟨83⟩, ⟨94⟩, ⟨95⟩, ⟨92⟩, ⟨97⟩, ⟨88⟩,
   ⟨96⟩, ⟨100⟩, ⟨102⟩, ⟨109⟩, ⟨104⟩, ⟨103⟩, ⟨106⟩, ⟨105⟩, ⟨108⟩, ⟨107⟩,
   ⟨.null⟩, ⟨.null⟩, ⟨.null⟩, ⟨.null⟩, ⟨.null⟩, ⟨.null⟩, ⟨.null⟩, ⟨.null⟩,
   ⟨.null⟩, ⟨.null⟩, ⟨.null⟩, ⟨.null⟩, ⟨.null⟩, ⟨.null⟩, ⟨.null⟩⟩

/-- The sample union with all macOS 13.0+ pointer arms valid. -/
def sampleEventsValidPtrs : es_events_t :=
  { sampleEvents with
    authentication := ⟨.valid ⟨111⟩⟩,
    xp_malware_detected := ⟨.valid ⟨112⟩⟩,
    xp_malware_remediated := ⟨.valid ⟨113⟩⟩,
    lw_session_login := ⟨.valid ⟨114⟩⟩,
    lw_session_logout := ⟨.valid ⟨115⟩⟩,
    lw_session_lock := ⟨.valid ⟨116⟩⟩,
    lw_session_unlock := ⟨.valid ⟨117⟩⟩,
    screensharing_attach := ⟨.valid ⟨118⟩⟩,
    screensharing_detach := ⟨.valid ⟨119⟩⟩,
    openssh_login := ⟨.valid ⟨120⟩⟩,
    openssh_logout := ⟨.valid ⟨121⟩⟩,
    login_login := ⟨.valid ⟨122⟩⟩,
    login_logout := ⟨.valid ⟨123⟩⟩,
    btm_launch_item_add := ⟨.valid ⟨124⟩⟩,
    btm_launch_item_remove := ⟨.valid ⟨125⟩⟩ }

/-- A sample top-level record at a given schema version. -/
def sampleMessage (version : Nat) : es_message_t :=
  ⟨version, ⟨0, 0⟩, 0, 0, ⟨.valid sampleProcessNullTty⟩, 42, 0, ⟨0⟩, 9,
   sampleEvents, .valid ⟨1234⟩, 77⟩

/-! # Theorems -/

/-! ## C8 — required-view primitive panics on null, dereferences otherwise -/

/-- C8: for every call to `ShouldNotBeNull::as_ref`, a null wrapped pointer
panics with the reproducible message `"Pointer was null when it should
not"` (it never dereferences or silently continues), and a non-null pointer
yields a reference to the pointee. -/
theorem shouldNotBeNull_as_ref_spec {α : Type} (p : ShouldNotBeNull α) :
    (p.ptr = .null → p.as_ref = .error shouldNotBeNullPanicMsg) ∧
    (∀ a, p.ptr = .valid a → p.as_ref = .ok a) := by
  constructor
  · intro h
    simp [ShouldNotBeNull.as_ref, RustPtr.as_ref, h]
  · intro a h
    simp [ShouldNotBeNull.as_ref, RustPtr.as_ref, h]

/-- C8 witness: the theorem applied at a null and at a valid pointer. -/
theorem shouldNotBeNull_as_ref_spec_witness :
    ((⟨.null⟩ : ShouldNotBeNull Nat).as_ref = .error shouldNotBeNullPanicMsg) ∧
    ((⟨.valid 3⟩ : ShouldNotBeNull Nat).as_ref = .ok 3) :=
  ⟨(shouldNotBeNull_as_ref_spec ⟨.null⟩).1 rfl,
   (shouldNotBeNull_as_ref_spec ⟨.valid 3⟩).2 3 rfl⟩

/-! ## C10 — the length-qualified string view is total and null-safe -/

/-- C10: `es_string_token_t::as_os_str` returns the empty view when the
data pointer is null (even if `length > 0`) and when `length = 0`; a
(non-empty) view of the pointed bytes is produced exactly when `length > 0`
and the pointer is non-null, so the accessor is total and never
dereferences a null pointer. -/
theorem es_string_token_as_os_str_spec (s : es_string_token_t) :
    (s.data = none → s.as_os_str = []) ∧
    (s.length = 0 → s.as_os_str = []) ∧
    (∀ mem, s.data = some mem → 0 < s.length →
      s.as_os_str = readBytes mem s.length ∧ s.as_os_str.length = s.length) ∧
    (s.as_os_str ≠ [] → 0 < s.length ∧ s.data ≠ none) := by
  obtain ⟨len, data⟩ := s
  refine ⟨?_, ?_, ?_, ?_⟩
  · intro h
    subst h
    simp [es_string_token_t.as_os_str]
  · intro h
    simp only at h
    subst h
    simp [es_string_token_t.as_os_str]
  · intro mem h hpos
    simp only at h hpos
    subst h
    simp [es_string_token_t.as_os_str, hpos, readBytes]
  · intro h
    by_cases hpos : 0 < len
    · cases data with
      | none => simp [es_string_token_t.as_os_str] at h
      | some mem => exact ⟨hpos, by simp⟩
    · simp [es_string_token_t.as_os_str, hpos] at h

/-- C10 witness: the theorem applied at a non-empty token and at a token
with a null data pointer but positive length. -/
theorem es_string_token_as_os_str_spec_witness :
    tokenABC.as_os_str = readBytes memA 3 ∧ tokenNullPtr.as_os_str = [] :=
  ⟨((es_string_token_as_os_str_spec tokenABC).2.2.1 memA rfl (by decide)).1,
   (es_string_token_as_os_str_spec tokenNullPtr).1 rfl⟩

/-! ## C7 — rename destination branches only on the destination-type tag -/

/-- C7: `EventRename::destination` branches only on the stored
`destination_type` tag: for `ES_DESTINATION_TYPE_EXISTING_FILE` it reads
only the `existing_file` union arm and returns `Some(ExistingFile(..))`
built from it; for `ES_DESTINATION_TYPE_NEW_PATH` it reads only the
`new_path` arm and returns `Some(NewPath { directory, filename })` built
from it; for every other tag value it reads neither arm and returns
`None`; it never reads both union arms for a single record. -/
theorem eventRename_destination_spec (e : EventRename) :
    (e.raw.destination_type = ES_DESTINATION_TYPE_EXISTING_FILE →
      e.destination.2 = [RenameDestArm.existing_file] ∧
      ∀ f, e.raw.destination.existing_file.ptr = .valid f →
        e.destination.1 = .ok (some (.ExistingFile (File.new f)))) ∧
    (e.raw.destination_type = ES_DESTINATION_TYPE_NEW_PATH →
      e.destination.2 = [RenameDestArm.new_path] ∧
      ∀ d, e.raw.destination.new_path.dir.ptr = .valid d →
        e.destination.1 = .ok (some (.NewPath (File.new d)
          e.raw.destination.new_path.filename.as_os_str))) ∧
    (e.raw.destination_type ≠ ES_DESTINATION_TYPE_EXISTING_FILE →
      e.raw.destination_type ≠ ES_DESTINATION_TYPE_NEW_PATH →
      e.destination = (.ok none, [])) ∧
    ¬ (RenameDestArm.existing_file ∈ e.destination.2 ∧
       RenameDestArm.new_path ∈ e.destination.2) := by
  refine ⟨?_, ?_, ?_, ?_⟩
  · intro h
    constructor
    · unfold EventRename.destination
      rw [if_pos h]
      rcases hp : e.raw.destination.existing_file.as_ref with m | f <;> simp [hp]
    · intro f hf
      unfold EventRename.destination
      rw [if_pos h]
      have hok : e.raw.destination.existing_file.as_ref = .ok f := by
        simp [ShouldNotBeNull.as_ref, RustPtr.as_ref, hf]
      simp [hok]
  · intro h
    have hne : e.raw.destination_type ≠ ES_DESTINATION_TYPE_EXISTING_FILE := by
      rw [h]
      decide
    constructor
    · unfold EventRename.destination
      rw [if_neg hne, if_pos h]
      dsimp only
      rcases hp : e.raw.destination.new_path.dir.as_ref with m | d <;> simp [hp]
    · intro d hd
      unfold EventRename.destination
      rw [if_neg hne, if_pos h]
      dsimp only
      have hok : e.raw.destination.new_path.dir.as_ref = .ok d := by
        simp [ShouldNotBeNull.as_ref, RustPtr.as_ref, hd]
      simp [hok]
  · intro h1 h2
    unfold EventRename.destination
    rw [if_neg h1, if_neg h2]
  · intro ⟨h1, h2⟩
    unfold EventRename.destination at h1 h2
    by_cases hA : e.raw.destination_type = ES_DESTINATION_TYPE_EXISTING_FILE
    · rw [if_pos hA] at h2
      rcases hp : e.raw.destination.existing_file.as_ref with m | f <;>
        simp [hp] at h2
    · by_cases hB : e.raw.destination_type = ES_DESTINATION_TYPE_NEW_PATH
      · rw [if_neg hA, if_pos hB] at h1
        dsimp only at h1
        rcases hp : e.raw.destination.new_path.dir.as_ref with m | d <;>
          simp [hp] at h1
      · rw [if_neg hA, if_neg hB] at h1
        simp at h1

/-- C7 witness: the theorem applied at the sample rename payload, whose
destination type is "new path". -/
theorem eventRename_destination_spec_witness :
    (EventRename.mk sampleRename).destination.2 = [RenameDestArm.new_path] ∧
    (EventRename.mk sampleRename).destination.1 =
      .ok (some (.NewPath (File.new sampleFile) tokenABC.as_os_str)) :=
  ⟨((eventRename_destination_spec ⟨sampleRename⟩).2.1 rfl).1,
   ((eventRename_destination_spec ⟨sampleRename⟩).2.1 rfl).2 sampleFile rfl⟩

/-! ## C6 / C9 — indexed array iterators -/

/-- Helper: the `u32` saturating increment is an ordinary increment below
`u32::MAX`. -/
theorem satSucc32_eq_of_lt {n : Nat} (h : n < u32Max) : satSucc32 n = n + 1 := by
  unfold u32Max at h
  unfold satSucc32 u32Max
  omega

/-- Helper: exhausting an iterator whose count is a `u32` value yields the
elements read at `current, current + 1, ..., count - 1`, and the reader is
called exactly at those indices, in order. -/
theorem eventDataIter_collect_eq {ρ α : Type} (reader : Nat → ρ) (conv : ρ → α) :
    ∀ (fuel : Nat) (it : EventDataIter), it.count ≤ u32Max →
      it.count - it.current ≤ fuel →
      EventDataIter.collect reader conv fuel it =
        ((List.range' it.current (it.count - it.current)).map (fun i => conv (reader i)),
         List.range' it.current (it.count - it.current)) := by
  intro fuel
  induction fuel with
  | zero =>
    intro it hc hf
    have h0 : it.count - it.current = 0 := Nat.le_zero.mp hf
    simp [EventDataIter.collect, h0]
  | succ n ih =>
    intro it hc hf
    by_cases hlt : it.current < it.count
    · have hcur : it.current < u32Max := Nat.lt_of_lt_of_le hlt hc
      have hnext : EventDataIter.next reader conv it =
          (some (conv (reader it.current)), ⟨it.count, it.current + 1⟩, [it.current]) := by
        simp [EventDataIter.next, hlt, satSucc32_eq_of_lt hcur]
      have hrec := ih ⟨it.count, it.current + 1⟩ hc (by simp; omega)
      simp only [EventDataIter.collect, hnext]
      rw [hrec]
      have hlen : it.count - it.current = (it.count - (it.current + 1)) + 1 := by omega
      rw [hlen, List.range'_succ]
      simp
    · have h0 : it.count - it.current = 0 := by omega
      simp [EventDataIter.collect, EventDataIter.next, hlt, h0]

/-- C6: a fresh iterator built by `make_event_data_iterator!` from a stored
count `n` yields exactly `n` elements — the reader's results at indices
`0, 1, ..., n-1` in increasing order; the reader is never invoked at an
index `≥ n` (any state, any operation; in particular for `n = 0` it is
never invoked at all); and `len`, `size_hint` and `count` equal the stored
count minus the current cursor, computed from those two fields alone. -/
theorem eventDataIter_exactness {ρ α : Type} (reader : Nat → ρ) (conv : ρ → α)
    (n : Nat) (hc : n ≤ u32Max) :
    (EventDataIter.collect reader conv n (EventDataIter.new n)).1 =
      (List.range n).map (fun i => conv (reader i)) ∧
    (EventDataIter.collect reader conv n (EventDataIter.new n)).1.length = n ∧
    (EventDataIter.collect reader conv n (EventDataIter.new n)).2 = List.range n ∧
    (∀ i ∈ (EventDataIter.collect reader conv n (EventDataIter.new n)).2, i < n) ∧
    (n = 0 → (EventDataIter.collect reader conv n (EventDataIter.new n)).2 = []) ∧
    (∀ it : EventDataIter, ∀ i ∈ (EventDataIter.next reader conv it).2.2, i < it.count) ∧
    (∀ it : EventDataIter, ∀ m, ∀ i ∈ (EventDataIter.nth reader conv it m).2.2,
      i < it.count) ∧
    (∀ it : EventDataIter, ∀ i ∈ (EventDataIter.last reader conv it).2.2, i < it.count) ∧
    (∀ it : EventDataIter,
      it.len = it.count - it.current ∧
      it.size_hint = (it.count - it.current, some (it.count - it.current)) ∧
      it.countConsuming.1 = it.count - it.current) := by
  have hcol := eventDataIter_collect_eq reader conv n (EventDataIter.new n) hc
    (by simp [EventDataIter.new])
  have hnewlen : (EventDataIter.new n).count - (EventDataIter.new n).current = n := by
    simp [EventDataIter.new]
  rw [hnewlen] at hcol
  have hrange : List.range' (EventDataIter.new n).current n = List.range n := by
    simp [EventDataIter.new, (List.range_eq_range' n).symm]
  refine ⟨?_, ?_, ?_, ?_, ?_, ?_, ?_, ?_, ?_⟩
  · rw [hcol]
    simp [hrange]
  · rw [hcol]
    simp
  · rw [hcol]
    simp [hrange]
  · intro i hi
    rw [hcol] at hi
    simp only at hi
    rw [hrange] at hi
    exact List.mem_range.mp hi
  · intro h0
    subst h0
    rw [hcol]
    simp
  · intro it i hi
    unfold EventDataIter.next at hi
    by_cases hlt : it.current < it.count
    · rw [if_pos hlt] at hi
      simp only [List.mem_singleton] at hi
      omega
    · rw [if_neg hlt] at hi
      simp at hi
  · intro it m i hi
    unfold EventDataIter.nth EventDataIter.next at hi
    by_cases hlt : min m u32Max < it.count
    · rw [if_pos hlt] at hi
      simp only [List.mem_singleton] at hi
      omega
    · rw [if_neg hlt] at hi
      simp at hi
  · intro it i hi
    unfold EventDataIter.last EventDataIter.next at hi
    by_cases hlt : it.count - 1 < it.count
    · rw [if_pos hlt] at hi
      simp only [List.mem_singleton] at hi
      omega
    · rw [if_neg hlt] at hi
      simp at hi
  · intro it
    exact ⟨rfl, rfl, rfl⟩

/-- C6 witness: the theorem applied at count 5 with a concrete reader and
conversion; the five elements and the five reader calls are spelled out. -/
theorem eventDataIter_exactness_witness :
    (EventDataIter.collect (fun i => i) (fun i => 10 * i) 5 (EventDataIter.new 5)).1 =
      [0, 10, 20, 30, 40] ∧
    (EventDataIter.collect (fun i => i) (fun i => 10 * i) 5 (EventDataIter.new 5)).2 =
      [0, 1, 2, 3, 4] :=
  have h := eventDataIter_exactness (fun i => i) (fun i => 10 * i) 5 (by decide)
  ⟨h.1.trans (by decide), h.2.2.1.trans (by decide)⟩

/-- C9: `nth(n)` of a generated iterator repositions the cursor to the
absolute index `n` (clamped to `u32::MAX`) regardless of the current
cursor, then yields the reader's element at index `n` whenever
`n < count` (and nothing otherwise); consequently its result depends only
on the stored count, never on how many elements were already consumed, so
it can re-yield earlier elements — unlike the standard library's relative
`nth` contract. -/
theorem eventDataIter_nth_absolute {ρ α : Type} (reader : Nat → ρ) (conv : ρ → α)
    (it : EventDataIter) (hc : it.count ≤ u32Max) (n : Nat) :
    (n < it.count →
      EventDataIter.nth reader conv it n =
        (some (conv (reader n)), ⟨it.count, n + 1⟩, [n])) ∧
    (it.count ≤ n →
      (EventDataIter.nth reader conv it n).1 = none ∧
      (EventDataIter.nth reader conv it n).2.1 = ⟨it.count, min n u32Max⟩ ∧
      (EventDataIter.nth reader conv it n).2.2 = []) ∧
    (∀ it2 : EventDataIter, it2.count = it.count →
      EventDataIter.nth reader conv it2 n = EventDataIter.nth reader conv it n) := by
  refine ⟨?_, ?_, ?_⟩
  · intro hlt
    have hmin : min n u32Max = n := by omega
    have hsat : satSucc32 n = n + 1 := satSucc32_eq_of_lt (by omega)
    simp [EventDataIter.nth, EventDataIter.next, hmin, hlt, hsat]
  · intro hge
    have hnlt : ¬ (min n u32Max < it.count) := by omega
    simp [EventDataIter.nth, EventDataIter.next, hnlt]
  · intro it2 h2
    simp [EventDataIter.nth, h2]

/-- C9 witness: a partially consumed iterator (count 5, cursor 4) on which
`nth(2)` re-yields the earlier element at absolute index 2. -/
theorem eventDataIter_nth_absolute_witness :
    EventDataIter.nth (fun i => i) (fun i => 10 * i) ⟨5, 4⟩ 2 =
      (some 20, ⟨5, 3⟩, [2]) :=
  (eventDataIter_nth_absolute (fun i => i) (fun i => 10 * i) ⟨5, 4⟩ (by decide) 2).1
    (by decide)

/-! ## C3 — lifecycle of construct + clone twice + drop all three -/

/-- C3 counterexample: in the copy-based regime (feature compiled in but
runtime gate at 10.15.0), constructing one `Message`, cloning it twice and
dropping all three handles performs *three* `es_copy_message` calls and
*three* `es_free_message` calls — not exactly one of each as claimed
(`Clone for Message` calls `Message::from_raw`, which duplicates again). -/
theorem cloneTwiceDropAll_copyRegime_counterexample :
    countCopies (cloneTwiceDropAll ⟨true⟩ ⟨10, 15, 0⟩ ⟨100⟩ 1) = 3 ∧
    countFrees (cloneTwiceDropAll ⟨true⟩ ⟨10, 15, 0⟩ ⟨100⟩ 1) = 3 ∧
    ¬ (countCopies (cloneTwiceDropAll ⟨true⟩ ⟨10, 15, 0⟩ ⟨100⟩ 1) = 1 ∧
       countFrees (cloneTwiceDropAll ⟨true⟩ ⟨10, 15, 0⟩ ⟨100⟩ 1) = 1) := by
  decide

/-- C3 (amended): in the copy-based regime the scenario performs exactly
three duplicate allocations and exactly three frees — one per handle — with
every duplicated pointer freed exactly once (the freed pointers are exactly
the allocated duplicates, in reverse order) and no retain/release calls;
in the retain-count regime it performs exactly three retains and three
matching releases, all on the delivered pointer (net balanced), and no
copy/free calls. -/
theorem cloneTwiceDropAll_balance (cfg : BuildConfig) (rv : RuntimeVersion)
    (os : FakeOS) (raw : Nat) :
    (retainRegime cfg rv = false →
      countCopies (cloneTwiceDropAll cfg rv os raw) = 3 ∧
      countFrees (cloneTwiceDropAll cfg rv os raw) = 3 ∧
      countRetains (cloneTwiceDropAll cfg rv os raw) = 0 ∧
      countReleases (cloneTwiceDropAll cfg rv os raw) = 0 ∧
      freedPtrs (cloneTwiceDropAll cfg rv os raw) =
        (copiedPtrs (cloneTwiceDropAll cfg rv os raw)).reverse) ∧
    (retainRegime cfg rv = true →
      countRetains (cloneTwiceDropAll cfg rv os raw) = 3 ∧
      countReleases (cloneTwiceDropAll cfg rv os raw) = 3 ∧
      countCopies (cloneTwiceDropAll cfg rv os raw) = 0 ∧
      countFrees (cloneTwiceDropAll cfg rv os raw) = 0 ∧
      cloneTwiceDropAll cfg rv os raw =
        [.es_retain_message raw, .es_retain_message raw, .es_retain_message raw,
         .es_release_message raw, .es_release_message raw, .es_release_message raw]) := by
  constructor
  · intro h
    simp [cloneTwiceDropAll, Message.from_raw, Message.clone, Message.drop, h,
      countCopies, countFrees, countRetains, countReleases, freedPtrs, copiedPtrs]
  · intro h
    simp [cloneTwiceDropAll, Message.from_raw, Message.clone, Message.drop, h,
      countCopies, countFrees, countRetains, countReleases]

/-- C3 witness: the amended theorem applied in both regimes at concrete
configurations. -/
theorem cloneTwiceDropAll_balance_witness :
    countCopies (cloneTwiceDropAll ⟨false⟩ ⟨13, 0, 0⟩ ⟨5⟩ 9) = 3 ∧
    countRetains (cloneTwiceDropAll ⟨true⟩ ⟨11, 0, 0⟩ ⟨5⟩ 9) = 3 :=
  ⟨((cloneTwiceDropAll_balance ⟨false⟩ ⟨13, 0, 0⟩ ⟨5⟩ 9).1 (by decide)).1,
   ((cloneTwiceDropAll_balance ⟨true⟩ ⟨11, 0, 0⟩ ⟨5⟩ 9).2 (by decide)).1⟩

/-! ## C4 — how the lifecycle regime is selected -/

/-- C4 counterexample: with the `macos_11_0_0` feature compiled in, two
states of the runtime-settable version gate produce *different* kernel
calls for the same acquire — `es_copy_message` at gate 10.15.0 and
`es_retain_message` at gate 11.0.0 — so the regime is not determined solely
by the build-time configuration. -/
theorem regime_runtime_gate_counterexample :
    (Message.from_raw ⟨true⟩ ⟨10, 15, 0⟩ ⟨7⟩ 42).2.2 = [.es_copy_message 42 7] ∧
    (Message.from_raw ⟨true⟩ ⟨11, 0, 0⟩ ⟨7⟩ 42).2.2 = [.es_retain_message 42] ∧
    (Message.from_raw ⟨true⟩ ⟨10, 15, 0⟩ ⟨7⟩ 42).2.2 ≠
      (Message.from_raw ⟨true⟩ ⟨11, 0, 0⟩ ⟨7⟩ 42).2.2 := by
  decide

/-- C4 (amended): the regime is selected by the conjunction of the
build-time feature and a runtime check of the version gate
(`versioned_call!`): with `macos_11_0_0` disabled the copy/free calls are
made regardless of the gate; with it enabled the retain/release calls are
made exactly when the gate is at least 11.0.0, and the copy/free calls
otherwise. -/
theorem regime_selection_spec (cfg : BuildConfig) (rv : RuntimeVersion)
    (os : FakeOS) (raw : Nat) (m : MessageHandle) :
    (cfg.macos_11_0_0 = false →
      (Message.from_raw cfg rv os raw).2.2 = [.es_copy_message raw os.next_ptr] ∧
      Message.drop cfg rv m = [.es_free_message m.ptr]) ∧
    (cfg.macos_11_0_0 = true → is_version_or_more rv 11 0 0 = true →
      (Message.from_raw cfg rv os raw).2.2 = [.es_retain_message raw] ∧
      Message.drop cfg rv m = [.es_release_message m.ptr]) ∧
    (cfg.macos_11_0_0 = true → is_version_or_more rv 11 0 0 = false →
      (Message.from_raw cfg rv os raw).2.2 = [.es_copy_message raw os.next_ptr] ∧
      Message.drop cfg rv m = [.es_free_message m.ptr]) := by
  refine ⟨?_, ?_, ?_⟩
  · intro h
    have hr : retainRegime cfg rv = false := by simp [retainRegime, h]
    simp [Message.from_raw, Message.drop, hr]
  · intro h1 h2
    have hr : retainRegime cfg rv = true := by simp [retainRegime, h1, h2]
    simp [Message.from_raw, Message.drop, hr]
  · intro h1 h2
    have hr : retainRegime cfg rv = false := by simp [retainRegime, h1, h2]
    simp [Message.from_raw, Message.drop, hr]

/-- C4 witness: the amended theorem applied at concrete configurations in
all three cases. -/
theorem regime_selection_spec_witness :
    (Message.from_raw ⟨false⟩ ⟨12, 0, 0⟩ ⟨7⟩ 42).2.2 = [.es_copy_message 42 7] ∧
    (Message.from_raw ⟨true⟩ ⟨12, 0, 0⟩ ⟨7⟩ 42).2.2 = [.es_retain_message 42] ∧
    Message.drop ⟨true⟩ ⟨10, 15, 7⟩ ⟨3⟩ = [.es_free_message 3] :=
  ⟨((regime_selection_spec ⟨false⟩ ⟨12, 0, 0⟩ ⟨7⟩ 42 ⟨3⟩).1 (by decide)).1,
   ((regime_selection_spec ⟨true⟩ ⟨12, 0, 0⟩ ⟨7⟩ 42 ⟨3⟩).2.1 (by decide) (by decide)).1,
   ((regime_selection_spec ⟨true⟩ ⟨10, 15, 7⟩ ⟨7⟩ 42 ⟨3⟩).2.2 (by decide) (by decide)).2⟩

/-! ## C5 — version-gated accessors -/

/-- C5 counterexample: `Process::tty` has documented introduction version
V = 2, yet on a record with stored version 2 (`≥ V`) and a null TTY pointer
it returns `None`, not `Some` of an encoded value — nullable-pointer fields
stay absent above their version gate when the pointer is null. -/
theorem version_gate_tty_counterexample :
    (2 : Nat) ≥ 2 ∧ Process.tty (Process.new sampleProcessNullTty 2) = none :=
  ⟨by decide, rfl⟩

/-- C5 (amended): every version-gated accessor returns the absence marker
(`None`) below its documented introduction version V, and never returns it
at version `≥ V`. At version `≥ V` the plain scalar accessors
(`Message::seq_num` with V = 2, `Message::global_seq_num` with V = 4,
`EventExec::last_fd` with V = 4) return `Some` of the value encoded in the
record; the nullable-pointer accessors (`Process::tty` with V = 2,
`Message::thread` with V = 4) return `Some` of the pointee exactly when the
stored pointer is non-null and `None` when it is null; and
`Process::start_time` (V = 3) returns `Some` of the encoded epoch-relative
time except on its defensive paths: it clamps to `Some(UNIX_EPOCH)` when
the timestamp exceeds the platform range, and panics when the `Duration`
addition overflows `u64` seconds. -/
theorem version_gated_accessors_spec (m : es_message_t) (p : Process)
    (e : EventExec) :
    (m.version < 2 → Message.seq_num m = none) ∧
    (2 ≤ m.version → Message.seq_num m = some m.seq_num) ∧
    (m.version < 4 → Message.global_seq_num m = none ∧ Message.thread m = none) ∧
    (4 ≤ m.version → Message.global_seq_num m = some m.global_seq_num ∧
      (m.thread = .null → Message.thread m = none) ∧
      (∀ t, m.thread = .valid t → Message.thread m = some (Thread.mk t))) ∧
    (p.version < 2 → Process.tty p = none) ∧
    (2 ≤ p.version →
      (p.raw.tty = .null → Process.tty p = none) ∧
      (∀ f, p.raw.tty = .valid f → Process.tty p = some (File.new f))) ∧
    (p.version < 3 → Process.start_time p = .ok none) ∧
    (3 ≤ p.version →
      Process.start_time p ≠ .ok none ∧
      (start_time_duration_secs p.raw.start_time < u64Bound →
        start_time_duration_secs p.raw.start_time ≤ i64Max →
        Process.start_time p = .ok (some (as_u64 p.raw.start_time.tv_sec * 1000000 +
          as_u64 p.raw.start_time.tv_usec))) ∧
      (start_time_duration_secs p.raw.start_time < u64Bound →
        i64Max < start_time_duration_secs p.raw.start_time →
        Process.start_time p = .ok (some 0)) ∧
      (u64Bound ≤ start_time_duration_secs p.raw.start_time →
        Process.start_time p = .error durationAddPanicMsg)) ∧
    (e.version < 4 → EventExec.last_fd e = none) ∧
    (4 ≤ e.version → EventExec.last_fd e = some e.raw.anon_0.anon_0.last_fd) := by
  refine ⟨?_, ?_, ?_, ?_, ?_, ?_, ?_, ?_, ?_, ?_⟩
  · intro h
    simp [Message.seq_num]
    omega
  · intro h
    simp [Message.seq_num, h]
  · intro h
    constructor
    · simp [Message.global_seq_num]
      omega
    · simp [Message.thread]
      omega
  · intro h
    refine ⟨by simp [Message.global_seq_num, h], ?_, ?_⟩
    · intro hn
      simp [Message.thread, h, hn, RustPtr.as_ref]
    · intro t ht
      simp [Message.thread, h, ht, RustPtr.as_ref]
  · intro h
    simp [Process.tty]
    omega
  · intro h
    constructor
    · intro hn
      simp [Process.tty, h, hn, RustPtr.as_ref]
    · intro f hf
      simp [Process.tty, h, hf, RustPtr.as_ref]
  · intro h
    unfold Process.start_time
    rw [if_neg (by omega)]
  · intro h
    refine ⟨?_, ?_, ?_, ?_⟩
    · unfold Process.start_time
      rw [if_pos h]
      split_ifs <;> simp
    · intro h1 h2
      unfold Process.start_time
      rw [if_pos h, if_neg (by omega), if_neg (by omega)]
    · intro h1 h2
      unfold Process.start_time
      rw [if_pos h, if_neg (by omega), if_pos (by omega)]
    · intro h1
      unfold Process.start_time
      rw [if_pos h, if_pos (by omega)]
  · intro h
    simp [EventExec.last_fd]
    omega
  · intro h
    simp [EventExec.last_fd, h]

/-- C5 witness: the amended theorem applied on both sides of each gate at
concrete records (message versions 1 and 2, process versions 2 and 3,
exec versions 3 and 4), including the start-time clamp and panic paths. -/
theorem version_gated_accessors_spec_witness :
    Message.seq_num (sampleMessage 1) = none ∧
    Message.seq_num (sampleMessage 2) = some 42 ∧
    Process.tty (Process.new sampleProcessWithTty 2) = some (File.new sampleFile) ∧
    Process.start_time (Process.new sampleProcessWithTty 3) =
      .ok (some (as_u64 100 * 1000000 + as_u64 5)) ∧
    Process.start_time (Process.new sampleProcessEpochClamp 3) = .ok (some 0) ∧
    Process.start_time (Process.new sampleProcessDurationPanic 3) =
      .error durationAddPanicMsg ∧
    EventExec.last_fd ⟨sampleExec, 3⟩ = none ∧
    EventExec.last_fd ⟨sampleExec, 4⟩ = some 7 :=
  ⟨(version_gated_accessors_spec (sampleMessage 1) (Process.new sampleProcessNullTty 1)
      ⟨sampleExec, 1⟩).1 (by decide),
   (version_gated_accessors_spec (sampleMessage 2) (Process.new sampleProcessNullTty 1)
      ⟨sampleExec, 1⟩).2.1 (by decide),
   ((version_gated_accessors_spec (sampleMessage 1) (Process.new sampleProcessWithTty 2)
      ⟨sampleExec, 1⟩).2.2.2.2.2.1 (by decide)).2 sampleFile rfl,
   ((version_gated_accessors_spec (sampleMessage 1) (Process.new sampleProcessWithTty 3)
      ⟨sampleExec, 1⟩).2.2.2.2.2.2.2.1 (by decide)).2.1 (by decide) (by decide),
   ((version_gated_accessors_spec (sampleMessage 1) (Process.new sampleProcessEpochClamp 3)
      ⟨sampleExec, 1⟩).2.2.2.2.2.2.2.1 (by decide)).2.2.1 (by decide) (by decide),
   ((version_gated_accessors_spec (sampleMessage 1) (Process.new sampleProcessDurationPanic 3)
      ⟨sampleExec, 1⟩).2.2.2.2.2.2.2.1 (by decide)).2.2.2 (by decide),
   (version_gated_accessors_spec (sampleMessage 1) (Process.new sampleProcessNullTty 1)
      ⟨sampleExec, 3⟩).2.2.2.2.2.2.2.2.1 (by decide),
   (version_gated_accessors_spec (sampleMessage 1) (Process.new sampleProcessNullTty 1)
      ⟨sampleExec, 4⟩).2.2.2.2.2.2.2.2.2 (by decide)⟩

/-! ## C1 / C2 — decoding and response classification -/

/-- Helper: decoding through a nullable `ShouldNotBeNull` arm (the
`as_opt()?` pattern of the macOS 13.0+ rows) succeeds exactly when the
pointer is non-null. -/
theorem isSome_match_as_opt {β : Type} (snnb : ShouldNotBeNull RawEventData)
    (k : RawEventData → β) :
    (match snnb.as_opt with
     | some r => some (k r)
     | none => none).isSome ↔ snnb.ptr ≠ .null := by
  obtain ⟨pp⟩ := snnb
  cases pp <;> simp [ShouldNotBeNull.as_opt, RustPtr.as_ref]

/-- Helper (one case analysis over the whole dispatch table): every event
the decoder produces carries the tag it was decoded from, classifies its
response per the golden table at that tag, and its tag lies inside the
compiled table. -/
theorem from_raw_parts_sound (event_type : Nat) (raw_event : es_events_t)
    (version : Nat) (e : Event)
    (h : Event.from_raw_parts event_type raw_event version = some e) :
    e.typeTag = event_type ∧
    e.expected_response_type = goldenExpectedResponse event_type raw_event ∧
    event_type < ES_EVENT_TYPE_LAST := by
  unfold Event.from_raw_parts at h
  split at h <;>
    first
      | (injection h with h
         subst h
         exact ⟨rfl, rfl, by decide⟩)
      | (cases h)
      | (split at h <;>
          first
            | (injection h with h
               subst h
               exact ⟨rfl, rfl, by decide⟩)
            | (cases h))

/-- C1: every event produced by `Event::from_raw_parts` classifies its
expected response exactly as the fixed reference table over kind tags:
`None` for notify-type tags, `Some(Auth)` for every request-type tag except
the open request, and `Some(Flags { flags })` with `flags` equal to the
open event's `fflag` field cast to `u32` for `ES_EVENT_TYPE_AUTH_OPEN`.
Since each `Auth*`/`Notify*` variant is produced from exactly its own tag
(see the decoder), `expected_response_type` is `None` exactly on the
`Notify*` variants and `Some` on every `Auth*` variant. -/
theorem expected_response_matches_golden (event_type : Nat)
    (raw_event : es_events_t) (version : Nat) (e : Event)
    (h : Event.from_raw_parts event_type raw_event version = some e) :
    e.expected_response_type = goldenExpectedResponse event_type raw_event :=
  (from_raw_parts_sound event_type raw_event version e h).2.1

/-- C1 witness: the theorem applied at the open-authorization tag; the
classification echoes the open event's `fflag` cast to `u32`. -/
theorem expected_response_matches_golden_witness :
    Event.expected_response_type (.AuthOpen ⟨sampleOpen⟩) =
      goldenExpectedResponse 1 sampleEvents ∧
    goldenExpectedResponse 1 sampleEvents = some (.Flags 5) :=
  ⟨expected_response_matches_golden 1 sampleEvents 3 (.AuthOpen ⟨sampleOpen⟩) rfl,
   by decide⟩

/-- C2 counterexample: tag 111 (`ES_EVENT_TYPE_NOTIFY_AUTHENTICATION`) is in
the compiled table (`111 < ES_EVENT_TYPE_LAST`), yet `Event::from_raw_parts`
returns `None` on it when the `authentication` union arm is a null pointer
— a known tag does not always produce the corresponding wrapper variant. -/
theorem known_tag_null_arm_counterexample :
    111 < ES_EVENT_TYPE_LAST ∧
    Event.from_raw_parts 111 sampleEvents 5 = none :=
  ⟨by decide, rfl⟩

/-- C2 (amended): tags outside the compiled table (`≥ ES_EVENT_TYPE_LAST`,
in particular anything beyond the highest known tag) always decode to
`None` — total, no panic, no default variant; known tags always produce the
corresponding wrapper variant built from the matching union arm, *except*
the macOS 13.0+ tags, whose union arm is a nullable pointer: those produce
the variant exactly when the pointer is non-null and `None` when it is
null. The produced variant always matches the tag (`typeTag` roundtrip). -/
theorem from_raw_parts_totality_spec (event_type : Nat)
    (raw_event : es_events_t) (version : Nat) :
    (ES_EVENT_TYPE_LAST ≤ event_type →
      Event.from_raw_parts event_type raw_event version = none) ∧
    (event_type < ES_EVENT_TYPE_LAST → pointerArm event_type raw_event = none →
      ∃ e, Event.from_raw_parts event_type raw_event version = some e) ∧
    (∀ p, pointerArm event_type raw_event = some p →
      ((Event.from_raw_parts event_type raw_event version).isSome ↔
        p.ptr ≠ .null)) ∧
    (∀ e, Event.from_raw_parts event_type raw_event version = some e →
      e.typeTag = event_type) := by
  refine ⟨?_, ?_, ?_, ?_⟩
  · intro hge
    cases hres : Event.from_raw_parts event_type raw_event version with
    | none => rfl
    | some e =>
      have hlt := (from_raw_parts_sound event_type raw_event version e hres).2.2
      omega
  · intro hlt hptr
    unfold ES_EVENT_TYPE_LAST at hlt
    unfold Event.from_raw_parts
    split <;>
      first
        | exact ⟨_, rfl⟩
        | (exfalso
           simp only [pointerArm] at hptr
           exact Option.noConfusion hptr)
        | (exfalso
           simp only [imp_false] at *
           omega)
  · intro p hp
    unfold pointerArm at hp
    split at hp <;>
      first
        | (injection hp with hp
           subst hp
           exact isSome_match_as_opt _ _)
        | (cases hp)
  · intro e h
    exact (from_raw_parts_sound event_type raw_event version e h).1

/-- C2 witness: the amended theorem applied at an out-of-table tag, at a
known non-pointer tag, at a known pointer tag with a valid arm, and on the
typeTag roundtrip. -/
theorem from_raw_parts_totality_spec_witness :
    Event.from_raw_parts 200 sampleEvents 1 = none ∧
    (∃ e, Event.from_raw_parts 9 sampleEvents 4 = some e) ∧
    ((Event.from_raw_parts 111 sampleEventsValidPtrs 4).isSome ↔
      sampleEventsValidPtrs.authentication.ptr ≠ .null) ∧
    Event.typeTag (.NotifyExec ⟨sampleExec, 4⟩) = 9 :=
  ⟨(from_raw_parts_totality_spec 200 sampleEvents 1).1 (by decide),
   (from_raw_parts_totality_spec 9 sampleEvents 4).2.1 (by decide) rfl,
   (from_raw_parts_totality_spec 111 sampleEventsValidPtrs 4).2.2.1
     sampleEventsValidPtrs.authentication rfl,
   (from_raw_parts_totality_spec 9 sampleEvents 4).2.2.2
     (.NotifyExec ⟨sampleExec, 4⟩) rfl⟩

end EndpointSec
